import Mathlib

/-!
xyz-football: result reporting and league reports.

A shallow embedding of the football league API: its service layer
(`internal/services`, `internal/repositories`, `internal/models`), the
handlers in front of it (`internal/handlers`) with the validation tags of
their request types, and the report and result code of the single-file
program `_main.go`.

* The relational store is a record of four tables, each a list of rows.
  A row carries the columns the services read or write; `Deleted` stands for
  a non-null `deleted_at` (gorm soft delete).
* Go `uint` is `Nat`, Go `int` is `Int` (tallies and scores stay far below
  `2^63`), a nullable `*int` is `Option Int`, `MatchStatus` is its underlying
  string.
* A Go `error` is `Option String` (`none` is `nil`); a function that writes to
  the store returns the new store next to its error.
* Failures raised by the database itself (lost connection, constraint
  violation, failed commit) are not computed from the rows: they are given by
  a `Faults` record that says which statement of the call fails.
* The table of admins is a list of its own, next to the store.
* The integer formatter of `_main.go` is the one place that reaches the edge
  of the 64-bit range; its negation wraps modulo `2^64` (`wrapInt64`).
-/

namespace XyzFootball

set_option maxRecDepth 8000

/-! ## Models -/

/-- Row of table `teams` (`models.Team`); the descriptive columns (logo,
founded year, stadium, city) are never read by the services. -/
structure Team where
  ID : Nat
  Name : String
  Deleted : Bool
deriving DecidableEq, Repr

/-- Row of table `players` (`models.Player`). -/
structure Player where
  ID : Nat
  TeamID : Nat
  Name : String
  Number : Int
  Deleted : Bool
deriving DecidableEq, Repr

/-- The constant `models.Scheduled`. -/
def Scheduled : String := "scheduled"

/-- The constant `models.Finished`. -/
def Finished : String := "finished"

/-- Row of table `matches` (`models.Match`). `MatchTime` is the instant as a
number; the preloaded relations `HomeTeam`, `AwayTeam` and `Goals` are not
columns and are read from their own tables. -/
structure Match where
  ID : Nat
  MatchTime : Int
  HomeTeamID : Nat
  AwayTeamID : Nat
  HomeScore : Option Int
  AwayScore : Option Int
  Status : String
  Deleted : Bool
deriving DecidableEq, Repr

/-- Row of table `goals` (`models.Goal`). -/
structure Goal where
  ID : Nat
  MatchID : Nat
  PlayerID : Nat
  Minute : Int
  Deleted : Bool
deriving DecidableEq, Repr

/-- A goal as it is handed to `ReportMatchResult`. Its caller
`MatchHandler.ReportResult` builds every `models.Goal` from `PlayerID` and
`Minute` alone, so the key is zero (the database assigns it) and `DeletedAt`,
`Match` and `Player` are unset. -/
structure GoalInput where
  PlayerID : Nat
  Minute : Int
deriving DecidableEq, Repr

/-- The stored state: the four tables the services work on. -/
structure DB where
  teams : List Team
  players : List Player
  matchRows : List Match
  goals : List Goal
deriving DecidableEq, Repr

/-- Which database statements of one service call fail. `createGoal i` is the
insert of the goal at index `i` of the reported list. -/
structure Faults where
  find : Bool
  begin : Bool
  save : Bool
  reload : Bool
  deleteGoals : Bool
  createGoal : Nat → Bool
  commit : Bool

/-- The run in which the database never fails. -/
def noFaults : Faults :=
  { find := false, begin := false, save := false, reload := false,
    deleteGoals := false, createGoal := fun _ => false, commit := false }

/-! ## Match repository -/

/-- A key no row of the table uses yet (auto-increment). -/
def freshID (ids : List Nat) : Nat := ids.foldl max 0 + 1

/-- `matchRepository.FindByID`: `First(&match, id)` returns the row with that
key that is not soft-deleted, or `ErrRecordNotFound`. -/
def matchRepository.FindByID (db : DB) (id : Nat) : Option Match :=
  db.matchRows.find? (fun m => m.ID == id && !m.Deleted)

/-- The live goals of a match, in table order: what `Preload("Goals")` loads. -/
def goalsOfMatch (db : DB) (matchID : Nat) : List Goal :=
  db.goals.filter (fun g => g.MatchID == matchID && !g.Deleted)

/-- `db.Save(match)` for a match read from the store beforehand, as every
caller does: writes every column of the row with the key of `m` (an update, or
an upsert when the update touched no live row). The relations loaded on `m`
(its two teams, its live goals) are upserted as they were read and leave their
tables as they are. -/
def gormSaveMatch (db : DB) (m : Match) : DB :=
  if db.matchRows.any (fun r => r.ID == m.ID) then
    { db with matchRows := db.matchRows.map (fun r => if r.ID == m.ID then m else r) }
  else
    { db with matchRows := db.matchRows ++ [m] }

/-- `matchRepository.Update`: `Save`, then read the row back with its
relations. Either statement can fail; a failed read leaves the save in place. -/
def matchRepository.Update (saveFails reloadFails : Bool) (db : DB) (m : Match) :
    DB × Option String :=
  if saveFails then (db, some "save failed")
  else
    let db1 := gormSaveMatch db m
    if reloadFails then (db1, some "reload failed")
    else
      match matchRepository.FindByID db1 m.ID with
      | none => (db1, some "record not found")
      | some _ => (db1, none)

/-- `matchRepository.WithTransaction`: `Begin`, run `txFunc` on the
transaction, `Rollback` when it returns an error (the store is then the one
before `Begin`), otherwise `Commit`. -/
def matchRepository.WithTransaction (beginFails commitFails : Bool) (db : DB)
    (txFunc : DB → DB × Option String) : DB × Option String :=
  if beginFails then (db, some "begin failed")
  else
    match txFunc db with
    | (_, some err) => (db, some err)
    | (tx, none) => if commitFails then (db, some "commit failed") else (tx, none)

/-- `db.Where("match_id = ?", matchID).Delete(&models.Goal{})`: `models.Goal`
has a `DeletedAt` column, so the live goals of the match are marked deleted. -/
def deleteGoalsOfMatch (db : DB) (matchID : Nat) : DB :=
  { db with goals := db.goals.map (fun g =>
      if g.MatchID == matchID && !g.Deleted then { g with Deleted := true } else g) }

/-- `db.Create(&goal)` for a goal with zero key: a new live row at the end of
the table. -/
def gormCreateGoal (db : DB) (matchID : Nat) (g : GoalInput) : DB :=
  { db with goals := db.goals ++
      [{ ID := freshID (db.goals.map Goal.ID), MatchID := matchID, PlayerID := g.PlayerID,
         Minute := g.Minute, Deleted := false }] }

/-! ## Match service -/

/-- The loop `for _, goal := range goals` of `ReportMatchResult`: set
`goal.MatchID`, insert, stop at the first insert that fails. `i` is the index
of the head of the list in the reported list. -/
def createGoals (createFails : Nat → Bool) (matchID : Nat) :
    List GoalInput → Nat → DB → DB × Option String
  | [], _, db => (db, none)
  | g :: rest, i, db =>
    if createFails i then (db, some "create goal failed")
    else createGoals createFails matchID rest (i + 1) (gormCreateGoal db matchID g)

/-- `matchService.ReportMatchResult`. -/
def matchService.ReportMatchResult (f : Faults) (db : DB) (matchID : Nat)
    (homeScore awayScore : Int) (goals : List GoalInput) : DB × Option String :=
  match (if f.find then none else matchRepository.FindByID db matchID) with
  | none => (db, some "match not found")
  | some m =>
    let m1 := { m with HomeScore := some homeScore, AwayScore := some awayScore,
                       Status := Finished }
    matchRepository.WithTransaction f.begin f.commit db (fun tx =>
      match matchRepository.Update f.save f.reload tx m1 with
      | (tx1, some err) => (tx1, some err)
      | (tx1, none) =>
        if f.deleteGoals then (tx1, some "delete goals failed")
        else createGoals f.createGoal matchID goals 0 (deleteGoalsOfMatch tx1 matchID))

/-! ## Report service: standings -/

/-- One row of the league table (`services.TeamStanding`). -/
structure TeamStanding where
  TeamID : Nat
  TeamName : String
  Played : Int
  Won : Int
  Drawn : Int
  Lost : Int
  GoalsFor : Int
  GoalsAway : Int
  Points : Int
deriving DecidableEq, Repr

/-- The Go map `map[uint]*TeamStanding`: its entries, one per key. -/
abbrev StandingsMap := List (Nat × TeamStanding)

/-- The lookup `standings[k]`: the pointer stored under `k`, `none` for the nil
pointer a missing key yields. -/
def mapGet (st : StandingsMap) (k : Nat) : Option TeamStanding :=
  (st.find? (fun e => e.1 == k)).map Prod.snd

/-- The assignment `standings[k] = v`: replaces the entry of `k` or adds one. -/
def mapSet (st : StandingsMap) (k : Nat) (v : TeamStanding) : StandingsMap :=
  if st.any (fun e => e.1 == k) then st.map (fun e => if e.1 == k then (k, v) else e)
  else st ++ [(k, v)]

/-- A write through the pointer stored under `k`: the row under `k` becomes
`f row`, every other entry stays. -/
def mapModify (st : StandingsMap) (k : Nat) (f : TeamStanding → TeamStanding) : StandingsMap :=
  st.map (fun e => if e.1 == k then (e.1, f e.2) else e)

/-- The first loop of `GetStandings`: an all-zero row for every team. -/
def initStandings (teams : List Team) : StandingsMap :=
  teams.foldl (fun st team => mapSet st team.ID
    { TeamID := team.ID, TeamName := team.Name, Played := 0, Won := 0, Drawn := 0, Lost := 0,
      GoalsFor := 0, GoalsAway := 0, Points := 0 }) []

/-- One iteration of the loop over the matches. A match that is not finished
or lacks a score is skipped. Otherwise `home` and `away` are the pointers
stored under the two team ids and the statements of the loop body write
through them in source order; writing through a nil pointer aborts the whole
call (`none`). -/
def processMatch (st : StandingsMap) (m : Match) : Option StandingsMap :=
  match m.HomeScore, m.AwayScore with
  | some hs, some as =>
    if m.Status != Finished then some st
    else
      match mapGet st m.HomeTeamID, mapGet st m.AwayTeamID with
      | some _, some _ =>
        let home := m.HomeTeamID
        let away := m.AwayTeamID
        let st := mapModify st home (fun r => { r with Played := r.Played + 1 })
        let st := mapModify st away (fun r => { r with Played := r.Played + 1 })
        let st := mapModify st home (fun r => { r with GoalsFor := r.GoalsFor + hs })
        let st := mapModify st home (fun r => { r with GoalsAway := r.GoalsAway + as })
        let st := mapModify st away (fun r => { r with GoalsFor := r.GoalsFor + as })
        let st := mapModify st away (fun r => { r with GoalsAway := r.GoalsAway + hs })
        if hs > as then
          let st := mapModify st home (fun r => { r with Won := r.Won + 1 })
          let st := mapModify st away (fun r => { r with Lost := r.Lost + 1 })
          some (mapModify st home (fun r => { r with Points := r.Points + 3 }))
        else if hs < as then
          let st := mapModify st away (fun r => { r with Won := r.Won + 1 })
          let st := mapModify st home (fun r => { r with Lost := r.Lost + 1 })
          some (mapModify st away (fun r => { r with Points := r.Points + 3 }))
        else
          let st := mapModify st home (fun r => { r with Drawn := r.Drawn + 1 })
          let st := mapModify st away (fun r => { r with Drawn := r.Drawn + 1 })
          let st := mapModify st home (fun r => { r with Points := r.Points + 1 })
          some (mapModify st away (fun r => { r with Points := r.Points + 1 }))
      | _, _ => none
  | _, _ => some st

/-- The loop `for _, match := range matches`. -/
def tallyMatches (st : StandingsMap) : List Match → Option StandingsMap
  | [] => some st
  | m :: rest =>
    match processMatch st m with
    | none => none
    | some st1 => tallyMatches st1 rest

/-- The order in which `for _, standing := range standings` visits the map.
Go leaves it unspecified and varies it from one loop to the next, so it is an
input of the model: some rearrangement of the entries. -/
structure MapOrder where
  iterate : List TeamStanding → List TeamStanding
  perm : ∀ l, (iterate l).Perm l

/-- The iteration that visits the entries in insertion order. -/
def insertionOrder : MapOrder := { iterate := id, perm := fun l => List.Perm.refl l }

/-- The iteration that visits the entries in the opposite order. -/
def reverseOrder : MapOrder := { iterate := List.reverse, perm := fun l => List.reverse_perm l }

/-- The comparison function handed to `sort.Slice`: points, then goal
difference, then goals for, each descending. -/
def standingLess (a b : TeamStanding) : Bool :=
  if a.Points != b.Points then decide (a.Points > b.Points)
  else
    let iGD := a.GoalsFor - a.GoalsAway
    let jGD := b.GoalsFor - b.GoalsAway
    if iGD != jGD then decide (iGD > jGD)
    else decide (a.GoalsFor > b.GoalsFor)

/-- The call `sort.Slice(x, less)`, as the insertion sort the Go library runs on
slices of at most twelve elements: no element is followed by one that is
`less` than it, and elements neither of which is `less` keep their order. On
longer slices the library promises the first property only. -/
def sortSlice {α : Type} (less : α → α → Bool) (x : List α) : List α :=
  x.insertionSort (fun a b => less b a = false)

/-- `reportService.GetStandings` on the results of `teamRepo.FindAll()` and
`repo.FindAll()`; `none` is the nil-pointer panic. -/
def reportService.GetStandings (o : MapOrder) (teams : List Team) (ms : List Match) :
    Option (List TeamStanding) :=
  match tallyMatches (initStandings teams) ms with
  | none => none
  | some st => some (sortSlice standingLess (o.iterate (st.map Prod.snd)))

/-! ## Sample data -/

/-- Three teams; Ana and Budi play for teams 1 and 2, Citra for team 3.
Match 1 (team 1 v team 2) is finished 2-1 with two goals, match 2
(team 1 v team 2) and match 3 (team 2 v team 3) are scheduled. -/
def sampleDB : DB :=
  { teams := [⟨1, "Garuda", false⟩, ⟨2, "Elang", false⟩, ⟨3, "Rajawali", false⟩],
    players := [⟨1, 1, "Ana", 9, false⟩, ⟨2, 2, "Budi", 10, false⟩, ⟨3, 3, "Citra", 7, false⟩],
    matchRows := [⟨1, 100, 1, 2, some 2, some 1, Finished, false⟩,
                ⟨2, 200, 1, 2, none, none, Scheduled, false⟩,
                ⟨3, 300, 2, 3, none, none, Scheduled, false⟩],
    goals := [⟨1, 1, 1, 10, false⟩, ⟨2, 1, 2, 55, false⟩, ⟨3, 2, 1, 5, false⟩] }

/-- The database run in which the insert of the second reported goal fails. -/
def secondInsertFails : Faults := { noFaults with createGoal := fun i => i == 1 }

/-! ## Reference tallies

The league table as the specification words it, computed for one team from the
list of matches and independent of the loop of `GetStandings`. -/

/-- A match the table counts: status finished and both scores present. -/
def counted (m : Match) : Bool :=
  m.Status == Finished && m.HomeScore.isSome && m.AwayScore.isSome

/-- The home score of a counted match. -/
def homeGoals (m : Match) : Int := m.HomeScore.getD 0

/-- The away score of a counted match. -/
def awayGoals (m : Match) : Int := m.AwayScore.getD 0

/-- The counted matches in which team `T` is the home team. -/
def homeMatches (T : Nat) (ms : List Match) : List Match :=
  ms.filter (fun m => counted m && m.HomeTeamID == T)

/-- The counted matches in which team `T` is the away team. -/
def awayMatches (T : Nat) (ms : List Match) : List Match :=
  ms.filter (fun m => counted m && m.AwayTeamID == T)

/-- Matches played by `T`: its counted home matches and its counted away matches. -/
def refPlayed (T : Nat) (ms : List Match) : Int :=
  (homeMatches T ms).length + (awayMatches T ms).length

/-- Matches won by `T`: at home with the higher home score, away with the
higher away score. -/
def refWon (T : Nat) (ms : List Match) : Int :=
  ((homeMatches T ms).filter (fun m => homeGoals m > awayGoals m)).length +
  ((awayMatches T ms).filter (fun m => awayGoals m > homeGoals m)).length

/-- Matches drawn by `T`: equal scores. -/
def refDrawn (T : Nat) (ms : List Match) : Int :=
  ((homeMatches T ms).filter (fun m => homeGoals m = awayGoals m)).length +
  ((awayMatches T ms).filter (fun m => awayGoals m = homeGoals m)).length

/-- Matches lost by `T`: at home with the lower home score, away with the lower
away score. -/
def refLost (T : Nat) (ms : List Match) : Int :=
  ((homeMatches T ms).filter (fun m => homeGoals m < awayGoals m)).length +
  ((awayMatches T ms).filter (fun m => awayGoals m < homeGoals m)).length

/-- Goals scored by `T`: the sum of its own score over its matches. -/
def refGoalsFor (T : Nat) (ms : List Match) : Int :=
  ((homeMatches T ms).map homeGoals).sum + ((awayMatches T ms).map awayGoals).sum

/-- Goals conceded by `T`: the sum of the score of its opponent over its matches. -/
def refGoalsAway (T : Nat) (ms : List Match) : Int :=
  ((homeMatches T ms).map awayGoals).sum + ((awayMatches T ms).map homeGoals).sum

/-- The row `r` of team `k` with the reference tallies of the matches `ms`
added to it, and three points a win and one a draw. -/
def addTallies (k : Nat) (ms : List Match) (r : TeamStanding) : TeamStanding :=
  { r with
    Played := r.Played + refPlayed k ms
    Won := r.Won + refWon k ms
    Drawn := r.Drawn + refDrawn k ms
    Lost := r.Lost + refLost k ms
    GoalsFor := r.GoalsFor + refGoalsFor k ms
    GoalsAway := r.GoalsAway + refGoalsAway k ms
    Points := r.Points + (3 * refWon k ms + refDrawn k ms) }

/-- The all-zero row `GetStandings` starts a team with. -/
def zeroStanding (team : Team) : TeamStanding :=
  { TeamID := team.ID, TeamName := team.Name, Played := 0, Won := 0, Drawn := 0, Lost := 0,
    GoalsFor := 0, GoalsAway := 0, Points := 0 }

/-- The effect of `mapModify` on one entry. -/
def modEntry (k : Nat) (f : TeamStanding → TeamStanding) (e : Nat × TeamStanding) :
    Nat × TeamStanding :=
  if e.1 == k then (e.1, f e.2) else e

/-- A league of five teams. -/
def leagueTeams : List Team :=
  [⟨1, "Team A", false⟩, ⟨2, "Team B", false⟩, ⟨3, "Team C", false⟩, ⟨4, "Team D", false⟩,
   ⟨5, "Team E", false⟩]

/-- Five finished matches (A-C 3-1, A-D 2-1, B-C 2-0, B-D 2-1, C-B 2-0) and a
scheduled one (D-E). -/
def leagueMatches : List Match :=
  [⟨1, 10, 1, 3, some 3, some 1, Finished, false⟩, ⟨2, 20, 1, 4, some 2, some 1, Finished, false⟩,
   ⟨3, 30, 2, 3, some 2, some 0, Finished, false⟩, ⟨4, 40, 2, 4, some 2, some 1, Finished, false⟩,
   ⟨5, 50, 3, 2, some 2, some 0, Finished, false⟩, ⟨6, 60, 4, 5, none, none, Scheduled, false⟩]

/-- Two teams that meet four times: E wins 2-0 and 1-0, draws 1-1 and loses 0-3. -/
def cupTeams : List Team := [⟨1, "Team E", false⟩, ⟨2, "Team F", false⟩]

/-- The four finished matches of `cupTeams`. -/
def cupMatches : List Match :=
  [⟨1, 10, 1, 2, some 2, some 0, Finished, false⟩, ⟨2, 20, 2, 1, some 0, some 1, Finished, false⟩,
   ⟨3, 30, 1, 2, some 1, some 1, Finished, false⟩, ⟨4, 40, 1, 2, some 0, some 3, Finished, false⟩]

/-- The row of Team E after `cupMatches`. -/
def cupRowE : TeamStanding := ⟨1, "Team E", 4, 2, 1, 1, 4, 4, 7⟩

/-- The row of Team F after `cupMatches`. -/
def cupRowF : TeamStanding := ⟨2, "Team F", 4, 1, 1, 2, 4, 4, 4⟩

/-! ## Match service: create and update -/

/-- The insert `db.Create(match)`: a new row at the end of the table, under a
new key when the key of `m` is zero; an empty status takes the column default
`scheduled`. A key that is already in the table is refused by the primary
key. Returns the store and the key of the new row. -/
def gormCreateMatch (db : DB) (m : Match) : Option (DB × Nat) :=
  if m.ID != 0 && db.matchRows.any (fun r => r.ID == m.ID) then none
  else
    let id := if m.ID == 0 then freshID (db.matchRows.map Match.ID) else m.ID
    some ({ db with matchRows := db.matchRows ++
      [{ m with ID := id, Status := if m.Status == "" then Scheduled else m.Status }] }, id)

/-- `matchRepository.Create`: insert, then read the row back with its
relations. -/
def matchRepository.Create (saveFails reloadFails : Bool) (db : DB) (m : Match) :
    DB × Option String :=
  if saveFails then (db, some "create failed")
  else
    match gormCreateMatch db m with
    | none => (db, some "duplicate key")
    | some (db1, id) =>
      if reloadFails then (db1, some "reload failed")
      else
        match matchRepository.FindByID db1 id with
        | none => (db1, some "record not found")
        | some _ => (db1, none)

/-- `matchService.CreateMatch`. -/
def matchService.CreateMatch (f : Faults) (db : DB) (m : Match) : DB × Option String :=
  if m.HomeTeamID == m.AwayTeamID then (db, some "home and away teams must be different")
  else
    let m1 := if m.Status == "" then { m with Status := Scheduled } else m
    matchRepository.Create f.save f.reload db m1

/-- `matchService.UpdateMatch`. -/
def matchService.UpdateMatch (f : Faults) (db : DB) (m : Match) : DB × Option String :=
  match (if f.find then none else matchRepository.FindByID db m.ID) with
  | none => (db, some "match not found")
  | some existingMatch =>
    if existingMatch.Status == Finished then (db, some "cannot update a finished match")
    else matchRepository.Update f.save f.reload db m

/-! ## Match handler -/

/-- The body of a create or update request (`handlers.CreateMatchRequest`);
`MatchTime` 0 stands for the zero `time.Time`. -/
structure CreateMatchRequest where
  MatchTime : Int
  HomeTeamID : Nat
  AwayTeamID : Nat
deriving DecidableEq, Repr

/-- The `binding` tags of `CreateMatchRequest`: the three fields are required
(not the zero value) and `AwayTeamID` is `nefield=HomeTeamID`. -/
def CreateMatchRequest.valid (req : CreateMatchRequest) : Bool :=
  req.MatchTime != 0 && req.HomeTeamID != 0 && req.AwayTeamID != 0 &&
  req.AwayTeamID != req.HomeTeamID

/-- `MatchHandler.Create`: the new store and the HTTP status of the answer. -/
def MatchHandler.Create (f : Faults) (db : DB) (req : CreateMatchRequest) : DB × Nat :=
  if !req.valid then (db, 400)
  else
    match matchService.CreateMatch f db
      { ID := 0, MatchTime := req.MatchTime, HomeTeamID := req.HomeTeamID,
        AwayTeamID := req.AwayTeamID, HomeScore := none, AwayScore := none,
        Status := Scheduled, Deleted := false } with
    | (db1, some _) => (db1, 400)
    | (db1, none) => (db1, 201)

/-- `MatchHandler.Update` for the match id parsed from the path: the match
handed to the service carries the id and the three request fields, every other
field is the zero value (no scores, empty status). -/
def MatchHandler.Update (f : Faults) (db : DB) (id : Nat) (req : CreateMatchRequest) :
    DB × Nat :=
  if !req.valid then (db, 400)
  else
    match matchService.UpdateMatch f db
      { ID := id, MatchTime := req.MatchTime, HomeTeamID := req.HomeTeamID,
        AwayTeamID := req.AwayTeamID, HomeScore := none, AwayScore := none,
        Status := "", Deleted := false } with
    | (db1, some _) => (db1, 400)
    | (db1, none) => (db1, 200)

/-- `MatchHandler.ReportResult` for the match id parsed from the path and a
decoded `ReportResultRequest`. -/
def MatchHandler.ReportResult (f : Faults) (db : DB) (matchID : Nat) (homeScore awayScore : Int)
    (goals : List GoalInput) : DB × Nat :=
  match matchService.ReportMatchResult f db matchID homeScore awayScore goals with
  | (db1, some _) => (db1, 400)
  | (db1, none) => (db1, 200)

/-- The store with no rows. -/
def emptyDB : DB := { teams := [], players := [], matchRows := [], goals := [] }

/-- The stores reached from the empty store by requests to the match handler's
`Create`, `Update` and `ReportResult`, whatever the requests carry and
whichever database statements fail. -/
inductive Reachable : DB → Prop
  | empty : Reachable emptyDB
  | create (f : Faults) (db : DB) (req : CreateMatchRequest) :
      Reachable db → Reachable (MatchHandler.Create f db req).1
  | update (f : Faults) (db : DB) (id : Nat) (req : CreateMatchRequest) :
      Reachable db → Reachable (MatchHandler.Update f db id req).1
  | report (f : Faults) (db : DB) (matchID : Nat) (homeScore awayScore : Int)
      (goals : List GoalInput) :
      Reachable db → Reachable (MatchHandler.ReportResult f db matchID homeScore awayScore goals).1

/-- Both scores of a stored match are non-null exactly when it is finished. -/
def ScoresIffFinished (db : DB) : Prop :=
  ∀ r ∈ db.matchRows, (r.HomeScore.isSome = true ∧ r.AwayScore.isSome = true) ↔ r.Status = Finished

/-! ## Player service -/

/-- Which database statements of one player-service call fail. -/
structure PlayerFaults where
  findByID : Bool
  findByTeam : Bool
  save : Bool
  reload : Bool

/-- The player-service run in which the database never fails. -/
def noPlayerFaults : PlayerFaults :=
  { findByID := false, findByTeam := false, save := false, reload := false }

/-- A player as it is handed to `CreatePlayer`. Its caller
`PlayerHandler.Create` builds the `models.Player` from the request alone, so
the key is zero (the database assigns it) and `DeletedAt` is unset. -/
structure PlayerInput where
  TeamID : Nat
  Name : String
  Number : Int
deriving DecidableEq, Repr

/-- `playerRepository.FindByID`. -/
def playerRepository.FindByID (db : DB) (id : Nat) : Option Player :=
  db.players.find? (fun p => p.ID == id && !p.Deleted)

/-- `playerRepository.FindByTeam`: the players of the team that are not
soft-deleted. -/
def playerRepository.FindByTeam (db : DB) (teamID : Nat) : List Player :=
  db.players.filter (fun p => p.TeamID == teamID && !p.Deleted)

/-- `playerRepository.Create` for a player with zero key: insert under a new
key, then read the row back. -/
def playerRepository.Create (saveFails reloadFails : Bool) (db : DB) (p : PlayerInput) :
    DB × Option String :=
  if saveFails then (db, some "create failed")
  else
    let id := freshID (db.players.map Player.ID)
    let db1 := { db with players := db.players ++
      [{ ID := id, TeamID := p.TeamID, Name := p.Name, Number := p.Number, Deleted := false }] }
    if reloadFails then (db1, some "reload failed")
    else
      match playerRepository.FindByID db1 id with
      | none => (db1, some "record not found")
      | some _ => (db1, none)

/-- `db.Save(player)` for a player whose key is that of a stored row: every
column of that row is written. -/
def gormSavePlayer (db : DB) (p : Player) : DB :=
  if db.players.any (fun r => r.ID == p.ID) then
    { db with players := db.players.map (fun r => if r.ID == p.ID then p else r) }
  else
    { db with players := db.players ++ [p] }

/-- `playerRepository.Update`: `Save`, then read the row back. -/
def playerRepository.Update (saveFails reloadFails : Bool) (db : DB) (p : Player) :
    DB × Option String :=
  if saveFails then (db, some "save failed")
  else
    let db1 := gormSavePlayer db p
    if reloadFails then (db1, some "reload failed")
    else
      match playerRepository.FindByID db1 p.ID with
      | none => (db1, some "record not found")
      | some _ => (db1, none)

/-- `playerService.CreatePlayer`. -/
def playerService.CreatePlayer (f : PlayerFaults) (db : DB) (player : PlayerInput) :
    DB × Option String :=
  if f.findByTeam then (db, some "find by team failed")
  else if (playerRepository.FindByTeam db player.TeamID).any (fun p => p.Number == player.Number)
  then (db, some "player number already exists in this team")
  else playerRepository.Create f.save f.reload db player

/-- `playerService.UpdatePlayer`. -/
def playerService.UpdatePlayer (f : PlayerFaults) (db : DB) (player : Player) :
    DB × Option String :=
  match (if f.findByID then none else playerRepository.FindByID db player.ID) with
  | none => (db, some "player not found")
  | some _ =>
    if f.findByTeam then (db, some "find by team failed")
    else if (playerRepository.FindByTeam db player.TeamID).any
        (fun p => p.ID != player.ID && p.Number == player.Number)
    then (db, some "player number already exists in this team")
    else playerRepository.Update f.save f.reload db player

/-- Some stored player of the team of `player` already has its shirt number. -/
def numberTaken (db : DB) (player : PlayerInput) : Prop :=
  ∃ q ∈ db.players, q.Deleted = false ∧ q.TeamID = player.TeamID ∧ q.Number = player.Number

/-- No two stored players share team and shirt number. -/
def ShirtNumbersUnique (db : DB) : Prop :=
  ∀ p ∈ db.players, ∀ q ∈ db.players, p.Deleted = false → q.Deleted = false → p.ID ≠ q.ID →
    ¬ (p.TeamID = q.TeamID ∧ p.Number = q.Number)

/-! ## Report service: top scorers and match report -/

/-- One row of the top-scorer list (`services.PlayerGoals`). -/
structure PlayerGoals where
  PlayerID : Nat
  PlayerName : String
  TeamName : String
  Goals : Int
deriving DecidableEq, Repr

/-- The order in which the database hands over rows that its `ORDER BY` does
not tell apart. SQL leaves it to the engine, so it is an input of the model:
some rearrangement of the rows, applied before the sort. -/
structure RowOrder where
  arrange : {α : Type} → List α → List α
  perm : ∀ {α : Type} (l : List α), (arrange l).Perm l

/-- The engine that hands rows over in the order it formed them. -/
def scanOrder : RowOrder := { arrange := fun l => l, perm := fun l => List.Perm.refl l }

/-- The engine that hands rows over in the opposite order. -/
def backwardOrder : RowOrder :=
  { arrange := fun l => l.reverse, perm := fun l => List.reverse_perm l }

/-- `COUNT(*)` of one group: the number of rows equal to `k`. -/
def countOf {α : Type} [DecidableEq α] (rows : List α) (k : α) : Nat :=
  (rows.filter (fun r => decide (r = k))).length

/-- `GROUP BY` with `COUNT(*)`: every distinct row once, with the number of
times it occurs. -/
def groupCount {α : Type} [DecidableEq α] (rows : List α) : List (α × Nat) :=
  rows.dedup.map (fun k => (k, countOf rows k))

/-- `ORDER BY`: the rows arranged so that none is followed by one that sorts
strictly before it; `before a b` says that `a` sorts strictly before `b`. -/
def sqlOrderBy {α : Type} (before : α → α → Bool) (rows : List α) : List α :=
  rows.insertionSort (fun a b => before b a = false)

/-- Text comparison `a < b` of the database, taken character by character. -/
def textLt (a b : String) : Bool := decide (a.toList < b.toList)

/-- The clause `ORDER BY goals DESC, players.name ASC`. -/
def scorerBefore (a b : PlayerGoals) : Bool :=
  decide (a.Goals > b.Goals) || (a.Goals == b.Goals && textLt a.PlayerName b.PlayerName)

/-- The rows of `goals JOIN players ON players.id = goals.player_id JOIN teams
ON teams.id = players.team_id`, as (player id, player name, team name). The
query names the table `goals` itself, not the model, so no `deleted_at` filter
is added: every row of the three tables takes part. -/
def scorerJoin (db : DB) : List (Nat × String × String) :=
  db.goals.flatMap (fun g =>
    (db.players.filter (fun p => p.ID == g.PlayerID)).flatMap (fun p =>
      (db.teams.filter (fun t => t.ID == p.TeamID)).map (fun t => (g.PlayerID, p.Name, t.Name))))

/-- The grouped rows of the top-scorer query, `GROUP BY goals.player_id,
players.name, teams.name` with `COUNT(*) as goals`, before they are ordered. -/
def scorerRows (db : DB) : List PlayerGoals :=
  (groupCount (scorerJoin db)).map (fun kc =>
    { PlayerID := kc.1.1, PlayerName := kc.1.2.1, TeamName := kc.1.2.2, Goals := kc.2 })

/-- `reportService.GetTopScorers` when the query succeeds, for the positive
limits its handler passes: join, group and count, order, cut at `limit`. -/
def reportService.GetTopScorers (o : RowOrder) (db : DB) (limit : Int) : List PlayerGoals :=
  (sqlOrderBy scorerBefore (o.arrange (scorerRows db))).take limit.toNat

/-- One goal of a match report (`services.Goal`). -/
structure ReportGoal where
  PlayerName : String
  Minute : Int
deriving DecidableEq, Repr

/-- The report of one match (`services.MatchReport`); the match time is kept
as the instant, not as its RFC 3339 text. -/
structure MatchReport where
  MatchID : Nat
  HomeTeam : String
  AwayTeam : String
  HomeScore : Option Int
  AwayScore : Option Int
  MatchTime : Int
  Status : String
  Goals : List ReportGoal
deriving DecidableEq, Repr

/-- The zero value of `models.Team`. -/
def zeroTeam : Team := { ID := 0, Name := "", Deleted := false }

/-- The zero value of `models.Player`. -/
def zeroPlayer : Player := { ID := 0, TeamID := 0, Name := "", Number := 0, Deleted := false }

/-- `Preload("HomeTeam")` / `Preload("AwayTeam")`: the live team with that id,
or the zero value left in the field. -/
def preloadTeam (db : DB) (teamID : Nat) : Team :=
  (db.teams.find? (fun t => t.ID == teamID && !t.Deleted)).getD zeroTeam

/-- `Preload("Goals")` as `matchRepository.FindByID` issues it: the live goals
of the match, each with its `Player` field. The repository preloads `Goals`
and not `Goals.Player`, so that field keeps its zero value. -/
def preloadGoals (db : DB) (matchID : Nat) : List (Goal × Player) :=
  (goalsOfMatch db matchID).map (fun g => (g, zeroPlayer))

/-- `reportService.GetMatchReport`. -/
def reportService.GetMatchReport (findFails : Bool) (db : DB) (matchID : Nat) :
    Except String MatchReport :=
  match (if findFails then none else matchRepository.FindByID db matchID) with
  | none => .error "record not found"
  | some m =>
    .ok { MatchID := m.ID, HomeTeam := (preloadTeam db m.HomeTeamID).Name,
          AwayTeam := (preloadTeam db m.AwayTeamID).Name, HomeScore := m.HomeScore,
          AwayScore := m.AwayScore, MatchTime := m.MatchTime, Status := m.Status,
          Goals := (preloadGoals db matchID).map (fun goal =>
            { PlayerName := goal.2.Name, Minute := goal.1.Minute }) }

/-! ## The single-file program

`_main.go` is the earlier form of the API in one file. Its models declare no
`DeletedAt`, so its queries read every row of a table. -/

/-- `statusAkhirText`. -/
def statusAkhirText (m : Match) : String :=
  match m.HomeScore, m.AwayScore with
  | some hs, some as =>
    if m.Status != Finished then "Scheduled"
    else if hs > as then "Tim Home Menang"
    else if hs < as then "Tim Away Menang"
    else "Draw"
  | _, _ => "Scheduled"

/-- A 64-bit signed result: `x` reduced modulo `2^64` into `[-2^63, 2^63)`. -/
def wrapInt64 (x : Int) : Int := (x + 2 ^ 63) % 2 ^ 64 - 2 ^ 63

/-- The loop `for i > 0` of `strconvItoa`. `pos` is the write position in the
20-byte buffer and `b` the bytes `b[pos:]` written so far; one more digit at
`pos = 0` indexes the buffer at -1 (`none`). -/
def itoaLoop : Nat → Int → List Char → Option (List Char)
  | 0, i, b => if i > 0 then none else some b
  | pos + 1, i, b =>
    if i > 0 then itoaLoop pos (i / 10) (Char.ofNat (48 + (i % 10).toNat) :: b) else some b

/-- `strconvItoa` on a 64-bit `int`. -/
def strconvItoa (i : Int) : Option String :=
  if i == 0 then some "0"
  else
    let sign := if i < 0 then "-" else ""
    let i := if i < 0 then wrapInt64 (-i) else i
    (itoaLoop 20 i []).map (fun digits => sign ++ String.mk digits)

/-- `fmtInt`. -/
def fmtInt (n : Int) : Option String := strconvItoa n

/-- `formatScore`. -/
def formatScore (h a : Int) : Option String :=
  match fmtInt h, fmtInt a with
  | some x, some y => some (x ++ "-" ++ y)
  | _, _ => none

/-- SQL `a > b` on nullable integers: false as soon as one side is null. -/
def sqlGt : Option Int → Option Int → Bool
  | some a, some b => decide (a > b)
  | _, _ => false

/-- `cumulativeWinsUntil` when the query succeeds: the number of rows with
`status = finished`, `match_time <= match.MatchTime`, and either
`home_team_id = teamID AND home_score > away_score` or
`away_team_id = teamID AND away_score > home_score`. -/
def cumulativeWinsUntil (db : DB) (m : Match) (teamID : Nat) : Int :=
  (db.matchRows.filter (fun r =>
    r.Status == Finished && decide (r.MatchTime ≤ m.MatchTime) &&
    ((r.HomeTeamID == teamID && sqlGt r.HomeScore r.AwayScore) ||
     (r.AwayTeamID == teamID && sqlGt r.AwayScore r.HomeScore)))).length

/-- `topScorerName` when the query succeeds: goals of the match joined with
their players, grouped by player, ordered by `count DESC, players.name ASC`,
first row only. -/
def topScorerName (o : RowOrder) (db : DB) (matchID : Nat) : Option String :=
  let joined := (db.goals.filter (fun g => g.MatchID == matchID)).flatMap (fun g =>
    (db.players.filter (fun p => p.ID == g.PlayerID)).map (fun p => (g.PlayerID, p.Name)))
  let rows := sqlOrderBy
    (fun a b : (Nat × String) × Nat => decide (a.2 > b.2) || (a.2 == b.2 && textLt a.1.2 b.1.2))
    (o.arrange (groupCount joined))
  rows.head?.map (fun r => r.1.2)

/-- One entry of the match report list (`MatchReportItem`). -/
structure MatchReportItem where
  MatchID : Nat
  MatchTime : Int
  HomeTeam : String
  AwayTeam : String
  FinalScore : String
  StatusAkhir : String
  TopScorerPlayer : Option String
  HomeWinsUntilThisMatch : Int
  AwayWinsUntilThisMatch : Int
deriving DecidableEq, Repr

/-- `matchReportItem`, its queries succeeding: the error is the missing team
row; an index panic of the score formatting is reported as an error too. -/
def matchReportItem (o : RowOrder) (db : DB) (m : Match) : Except String MatchReportItem :=
  match db.teams.find? (fun t => t.ID == m.HomeTeamID) with
  | none => .error "record not found"
  | some home =>
    match db.teams.find? (fun t => t.ID == m.AwayTeamID) with
    | none => .error "record not found"
    | some away =>
      let final := match m.HomeScore, m.AwayScore with
        | some h, some a => formatScore h a
        | _, _ => some "0-0"
      match final with
      | none => .error "panic: index out of range"
      | some final =>
        .ok { MatchID := m.ID, MatchTime := m.MatchTime, HomeTeam := home.Name,
              AwayTeam := away.Name, FinalScore := final, StatusAkhir := statusAkhirText m,
              TopScorerPlayer := topScorerName o db m.ID,
              HomeWinsUntilThisMatch := cumulativeWinsUntil db m m.HomeTeamID,
              AwayWinsUntilThisMatch := cumulativeWinsUntil db m m.AwayTeamID }

/-! ## Reference definitions for the reports -/

/-- The character of a decimal digit. -/
def decimalDigit (d : Nat) : Char := Nat.digitChar d

/-- The base-10 numeral of a natural number, most significant digit first, no
leading zero, `0` for zero. -/
def decimalNat (n : Nat) : String :=
  if n = 0 then "0" else String.mk ((Nat.digits 10 n).reverse.map decimalDigit)

/-- The base-10 numeral of an integer, with a minus sign when it is negative. -/
def decimalInt (i : Int) : String :=
  if i < 0 then "-" ++ decimalNat i.natAbs else decimalNat i.natAbs

/-- The answer of a handler: the HTTP status and, when a JSON body is written,
the text of its `message` or `error` entry. -/
structure Response where
  Status : Nat
  Body : Option String
deriving DecidableEq, Repr

/-- Which database statements of one delete request fail; `find i` is the
lookup number `i` of the request, `delete` its delete statement. -/
structure DeleteFaults where
  find : Nat → Bool
  delete : Bool

/-- The delete request during which the database never fails. -/
def noDeleteFaults : DeleteFaults := { find := fun _ => false, delete := false }

/-- `teamRepository.FindByID`: the team with that key that is not
soft-deleted. -/
def teamRepository.FindByID (db : DB) (id : Nat) : Option Team :=
  db.teams.find? (fun t => t.ID == id && !t.Deleted)

/-- `teamRepository.FindAll`: the teams that are not soft-deleted; the query
has no `ORDER BY`, so the order of the rows is the engine's. -/
def teamRepository.FindAll (o : RowOrder) (db : DB) : List Team :=
  o.arrange (db.teams.filter (fun t => !t.Deleted))

/-- `db.Delete(team)`: `models.Team` has a `DeletedAt` column, so the live row
with the key of the team is marked deleted and stays in the table. -/
def gormDeleteTeam (db : DB) (id : Nat) : DB :=
  { db with teams := db.teams.map (fun t =>
      if t.ID == id && !t.Deleted then { t with Deleted := true } else t) }

/-- `teamRepository.Delete`: look the team up, then delete it; `lookup` is the
number of its lookup within the request. -/
def teamRepository.Delete (f : DeleteFaults) (lookup : Nat) (db : DB) (id : Nat) :
    DB × Option String :=
  match (if f.find lookup then none else teamRepository.FindByID db id) with
  | none => (db, some "record not found")
  | some team =>
    if f.delete then (db, some "delete failed") else (gormDeleteTeam db team.ID, none)

/-- `teamService.GetTeamByID`; `none` is the error of the repository. -/
def teamService.GetTeamByID (f : DeleteFaults) (lookup : Nat) (db : DB) (id : Nat) :
    Option Team :=
  if f.find lookup then none else teamRepository.FindByID db id

/-- `teamService.DeleteTeam`. -/
def teamService.DeleteTeam (f : DeleteFaults) (lookup : Nat) (db : DB) (id : Nat) :
    DB × Option String :=
  teamRepository.Delete f lookup db id

/-- `TeamHandler.Delete` for the team id parsed from the path. -/
def TeamHandler.Delete (f : DeleteFaults) (db : DB) (id : Nat) : DB × Response :=
  match teamService.GetTeamByID f 0 db id with
  | none => (db, ⟨404, some "Team not found"⟩)
  | some _ =>
    match teamService.DeleteTeam f 1 db id with
    | (db1, some _) => (db1, ⟨500, some "Failed to delete team"⟩)
    | (db1, none) => (db1, ⟨200, some "Team deleted successfully"⟩)

/-- `playerRepository.Delete`: `db.Delete(&models.Player{}, id)` marks the live
row with that key deleted; when no row matches, nothing is written and no
error is returned. -/
def playerRepository.Delete (deleteFails : Bool) (db : DB) (id : Nat) : DB × Option String :=
  if deleteFails then (db, some "delete failed")
  else
    ({ db with players := db.players.map (fun p =>
        if p.ID == id && !p.Deleted then { p with Deleted := true } else p) }, none)

/-- `playerService.DeletePlayer`. -/
def playerService.DeletePlayer (f : DeleteFaults) (db : DB) (id : Nat) : DB × Option String :=
  match (if f.find 0 then none else playerRepository.FindByID db id) with
  | none => (db, some "player not found")
  | some _ => playerRepository.Delete f.delete db id

/-- `PlayerHandler.Delete` for the player id parsed from the path. -/
def PlayerHandler.Delete (f : DeleteFaults) (db : DB) (id : Nat) : DB × Response :=
  match playerService.DeletePlayer f db id with
  | (db1, some _) => (db1, ⟨500, some "failed to delete player"⟩)
  | (db1, none) => (db1, ⟨200, some "Player deleted successfully"⟩)

/-- `matchRepository.Delete`: `db.Delete(&models.Match{}, id)` marks the live
row with that key deleted; when no row matches, nothing is written and no
error is returned. -/
def matchRepository.Delete (deleteFails : Bool) (db : DB) (id : Nat) : DB × Option String :=
  if deleteFails then (db, some "delete failed")
  else
    ({ db with matchRows := db.matchRows.map (fun m =>
        if m.ID == id && !m.Deleted then { m with Deleted := true } else m) }, none)

/-- `matchService.DeleteMatch`. -/
def matchService.DeleteMatch (f : DeleteFaults) (db : DB) (id : Nat) : DB × Option String :=
  matchRepository.Delete f.delete db id

/-- `MatchHandler.Delete` for the match id parsed from the path. -/
def MatchHandler.Delete (f : DeleteFaults) (db : DB) (id : Nat) : DB × Response :=
  match matchService.DeleteMatch f db id with
  | (db1, some _) => (db1, ⟨500, some "failed to delete match"⟩)
  | (db1, none) => (db1, ⟨204, none⟩)

/-! ## Standings on the store -/

/-- `matchRepository.FindAll`: the matches that are not soft-deleted, `ORDER BY
match_time ASC`. -/
def matchRepository.FindAll (o : RowOrder) (db : DB) : List Match :=
  sqlOrderBy (fun a b => decide (a.MatchTime < b.MatchTime))
    (o.arrange (db.matchRows.filter (fun m => !m.Deleted)))

/-- `reportService.GetStandings` together with its two reads,
`teamRepo.FindAll()` and `repo.FindAll()`, both succeeding. -/
def reportService.GetStandingsFrom (o : MapOrder) (r : RowOrder) (db : DB) :
    Option (List TeamStanding) :=
  reportService.GetStandings o (teamRepository.FindAll r db) (matchRepository.FindAll r db)

/-- The number of goals of a player that are attached to a match: its rows of
the `goals` table that are not soft-deleted, which `Preload("Goals")` shows. -/
def liveGoals (db : DB) (playerID : Nat) : Int :=
  (db.goals.filter (fun g => g.PlayerID == playerID && !g.Deleted)).length

/-! ## Admin registration -/

/-- Row of table `admins` (`models.Admin`). -/
structure Admin where
  ID : Nat
  Name : String
  Email : String
  Password : String
  Deleted : Bool
deriving DecidableEq, Repr

/-- The body of a registration request (`handlers.RegisterRequest`). -/
structure RegisterRequest where
  Name : String
  Email : String
  Password : String
deriving DecidableEq, Repr

/-- What a registration request depends on besides the table: the `email`
format check of the validator, the password hash (`none` when
`bcrypt.GenerateFromPassword` fails), and whether the lookup or the insert of
the request fails in the database. -/
structure AdminEnv where
  emailOK : String → Bool
  hash : String → Option String
  find : Bool
  create : Bool

/-- The `binding` tags of `RegisterRequest`: `Name` is `required`, `Email` is
`required,email`, `Password` is `required,min=8` (at least eight characters). -/
def RegisterRequest.valid (emailOK : String → Bool) (req : RegisterRequest) : Bool :=
  req.Name != "" && (req.Email != "" && emailOK req.Email) &&
  (req.Password != "" && decide (8 ≤ req.Password.length))

/-- `adminRepository.FindByEmail`: the live admin with that email. -/
def adminRepository.FindByEmail (admins : List Admin) (email : String) : Option Admin :=
  admins.find? (fun a => a.Email == email && !a.Deleted)

/-- `adminRepository.Create` for an admin with zero key: a new row under a new
key; the unique index on `email` refuses an address some row already has. -/
def adminRepository.Create (createFails : Bool) (admins : List Admin) (admin : Admin) :
    List Admin × Option String :=
  if createFails then (admins, some "create failed")
  else if admins.any (fun a => a.Email == admin.Email) then (admins, some "duplicate email")
  else (admins ++ [{ admin with ID := freshID (admins.map Admin.ID) }], none)

/-- `adminService.Register`: hash the password, then insert. -/
def adminService.Register (env : AdminEnv) (admins : List Admin) (admin : Admin) :
    List Admin × Option String :=
  match env.hash admin.Password with
  | none => (admins, some "failed to hash password")
  | some hashedPassword =>
    adminRepository.Create env.create admins { admin with Password := hashedPassword }

/-- `adminService.FindByEmail`; `none` is the error of the repository. -/
def adminService.FindByEmail (env : AdminEnv) (admins : List Admin) (email : String) :
    Option Admin :=
  if env.find then none else adminRepository.FindByEmail admins email

/-- `AdminHandler.Register`: the new table and the HTTP status of the answer. -/
def AdminHandler.Register (env : AdminEnv) (admins : List Admin) (req : RegisterRequest) :
    List Admin × Nat :=
  if !req.valid env.emailOK then (admins, 400)
  else
    match adminService.FindByEmail env admins req.Email with
    | some _ => (admins, 400)
    | none =>
      match adminService.Register env admins
        { ID := 0, Name := req.Name, Email := req.Email, Password := req.Password,
          Deleted := false } with
      | (admins1, some _) => (admins1, 500)
      | (admins1, none) => (admins1, 201)

/-- A run of the registration in which nothing fails: addresses with an `@`
pass the format check and the hash is a tagged copy of the password. -/
def sampleAdminEnv : AdminEnv :=
  { emailOK := fun s => s.toList.contains '@', hash := fun p => some ("hashed:" ++ p),
    find := false, create := false }

/-! ## Request validation -/

/-- The validator tag `required` on an integer field: the value is not the zero
value of its type. -/
def validRequired (n : Int) : Bool := n != 0

/-- The validator tag `min=k` on an integer field. -/
def validMin (k n : Int) : Bool := decide (k ≤ n)

/-- The validator tag `max=k` on an integer field. -/
def validMax (k n : Int) : Bool := decide (n ≤ k)

/-- The `binding` tags of the handler's `ReportGoalRequest`: `PlayerID` is
`required`, `Minute` is `required,min=1,max=130`. `MatchHandler.ReportResult`
never evaluates them: the `Goals` field of its `ReportResultRequest` has no
`dive` tag, so the validator does not descend into the elements, and the two
scores carry no tag at all. -/
def ReportGoalRequest.valid (g : GoalInput) : Bool :=
  g.PlayerID != 0 && (validRequired g.Minute && validMin 1 g.Minute && validMax 130 g.Minute)

/-- The `binding` tags of `ReportGoalDTO` in `_main.go`: `PlayerID` is
`required`, `Minute` is `required,min=0,max=130`. -/
def ReportGoalDTO.valid (g : GoalInput) : Bool :=
  g.PlayerID != 0 && (validRequired g.Minute && validMin 0 g.Minute && validMax 130 g.Minute)

/-- The body of a result report in `_main.go` (`ReportResultDTO`). -/
structure ReportResultDTO where
  HomeScore : Int
  AwayScore : Int
  Goals : List GoalInput
deriving DecidableEq, Repr

/-- The `binding` tags of `ReportResultDTO`: both scores are `required,min=0`
and `Goals` is `dive`, so every element is checked against `ReportGoalDTO`. -/
def ReportResultDTO.valid (dto : ReportResultDTO) : Bool :=
  (validRequired dto.HomeScore && validMin 0 dto.HomeScore) &&
  (validRequired dto.AwayScore && validMin 0 dto.AwayScore) &&
  dto.Goals.all ReportGoalDTO.valid

/-! ## The single-file program: result report -/

/-- How `reportResult` of `_main.go` answers before it writes: one of its five
refusals, or `passed` when the request reaches the transaction. -/
inductive ReportCheck where
  | matchNotFound
  | alreadyFinished
  | bindingError
  | playersNotFound
  | scorerOutsideTeams
  | passed
deriving DecidableEq, Repr

/-- The HTTP status of a refusal of `reportResult`. -/
def ReportCheck.status : ReportCheck → Option Nat
  | .matchNotFound => some 404
  | .alreadyFinished => some 400
  | .bindingError => some 400
  | .playersNotFound => some 400
  | .scorerOutsideTeams => some 400
  | .passed => none

/-- The part of `reportResult` in `_main.go` that comes before its
transaction, for the match id of the path and the decoded body: look the match
up, refuse a finished one, validate the body, then check the scorers. The
players are read with `WHERE id IN playerIDs`, which yields every matching row
once, and their number is compared with the number of reported goals.
`findFails` and `playersFail` say whether the two reads fail in the database. -/
def reportResult (findFails playersFail : Bool) (db : DB) (id : Nat) (dto : ReportResultDTO) :
    ReportCheck :=
  match (if findFails then none else db.matchRows.find? (fun m => m.ID == id)) with
  | none => .matchNotFound
  | some m =>
    if m.Status == Finished then .alreadyFinished
    else if !dto.valid then .bindingError
    else if dto.Goals.length > 0 then
      let playerIDs := dto.Goals.map GoalInput.PlayerID
      let players := db.players.filter (fun p => playerIDs.contains p.ID)
      if playersFail || players.length != playerIDs.length then .playersNotFound
      else if players.any (fun p => p.TeamID != m.HomeTeamID && p.TeamID != m.AwayTeamID)
      then .scorerOutsideTeams
      else .passed
    else .passed

/-! ## Lemmas on the store -/

theorem le_foldl_max (ids : List Nat) :
    ∀ a : Nat, a ≤ ids.foldl max a ∧ ∀ i ∈ ids, i ≤ ids.foldl max a := by
  induction ids with
  | nil => intro a; simp
  | cons x xs ih =>
    intro a
    obtain ⟨h1, h2⟩ := ih (max a x)
    simp only [List.foldl_cons, List.mem_cons]
    refine ⟨le_trans (le_max_left a x) h1, ?_⟩
    rintro i (rfl | hi)
    · exact le_trans (le_max_right a i) h1
    · exact h2 i hi

theorem lt_freshID (ids : List Nat) (i : Nat) (hi : i ∈ ids) : i < freshID ids := by
  unfold freshID
  exact Nat.lt_succ_of_le ((le_foldl_max ids 0).2 i hi)

theorem findByID_spec (db : DB) (id : Nat) (m : Match)
    (h : matchRepository.FindByID db id = some m) :
    m ∈ db.matchRows ∧ m.ID = id ∧ m.Deleted = false := by
  unfold matchRepository.FindByID at h
  have hp := List.find?_some h
  have hm := List.mem_of_find?_eq_some h
  simp at hp
  exact ⟨hm, hp.1, hp.2⟩

theorem find_map_replace (l : List Match) (id : Nat) (m m1 : Match)
    (h : l.find? (fun r => r.ID == id && !r.Deleted) = some m)
    (h1 : m1.ID = id) (h2 : m1.Deleted = false) :
    (l.map (fun r => if r.ID == id then m1 else r)).find?
      (fun r => r.ID == id && !r.Deleted) = some m1 := by
  induction l with
  | nil => simp at h
  | cons x xs ih =>
    by_cases hx : x.ID = id
    · simp [List.find?_cons, hx, h1, h2]
    · have hp : (x.ID == id && !x.Deleted) = false := by simp [hx]
      rw [List.find?_cons_of_neg _ (by simp [hp])] at h
      have hq : (x.ID == id) = false := by simp [hx]
      simp only [List.map_cons, hq, Bool.false_eq_true, if_false]
      rw [List.find?_cons_of_neg _ (by simp [hp])]
      exact ih h

theorem filter_map_replace (l : List Match) (m : Match) (other : Nat) (hne : other ≠ m.ID) :
    (l.map (fun r => if r.ID == m.ID then m else r)).filter (fun r => r.ID == other) =
      l.filter (fun r => r.ID == other) := by
  induction l with
  | nil => rfl
  | cons x xs ih =>
    simp only [List.map_cons, List.filter_cons, ih]
    by_cases hx : x.ID = m.ID
    · have hx2 : ¬ x.ID = other := by rw [hx]; exact fun h => hne h.symm
      have hm : ¬ m.ID = other := fun h => hne h.symm
      simp [hx, hx2, hm]
    · simp [hx]

theorem gormSaveMatch_find (db : DB) (id : Nat) (m m1 : Match)
    (h : matchRepository.FindByID db id = some m) (h1 : m1.ID = id)
    (h2 : m1.Deleted = false) :
    matchRepository.FindByID (gormSaveMatch db m1) id = some m1 := by
  obtain ⟨hm, hid, _⟩ := findByID_spec db id m h
  have hany : db.matchRows.any (fun r => r.ID == m1.ID) = true := by
    rw [List.any_eq_true]
    exact ⟨m, hm, by simp [hid, h1]⟩
  unfold gormSaveMatch
  rw [if_pos hany]
  unfold matchRepository.FindByID at h ⊢
  simp only [h1]
  exact find_map_replace db.matchRows id m m1 h h1 h2

theorem gormSaveMatch_frame (db : DB) (m : Match) :
    (gormSaveMatch db m).teams = db.teams ∧ (gormSaveMatch db m).players = db.players ∧
    (gormSaveMatch db m).goals = db.goals ∧
    ∀ other, other ≠ m.ID →
      (gormSaveMatch db m).matchRows.filter (fun r => r.ID == other) =
        db.matchRows.filter (fun r => r.ID == other) := by
  unfold gormSaveMatch
  split
  · refine ⟨rfl, rfl, rfl, ?_⟩
    intro other hne
    exact filter_map_replace db.matchRows m other hne
  · refine ⟨rfl, rfl, rfl, ?_⟩
    intro other hne
    have hm : ¬ m.ID = other := fun h => hne h.symm
    simp [List.filter_append, List.filter_cons, hm]

theorem update_spec (sf rf : Bool) (db db1 : DB) (m : Match)
    (h : matchRepository.Update sf rf db m = (db1, none)) :
    sf = false ∧ rf = false ∧ db1 = gormSaveMatch db m := by
  unfold matchRepository.Update at h
  cases sf <;> cases rf <;> simp at h
  split at h <;> simp at h
  exact ⟨rfl, rfl, h.symm⟩

/-- What the inserts of a result report that ran to its end did to the store:
one new live row per reported goal, at the end of the `goals` table, each
under a key above all earlier ones. -/
theorem createGoals_ok (cf : Nat → Bool) (matchID : Nat) (goals : List GoalInput) :
    ∀ (i : Nat) (db db1 : DB), createGoals cf matchID goals i db = (db1, none) →
      ∃ news : List Goal, db1 = { db with goals := db.goals ++ news } ∧
        news.map (fun g => (g.MatchID, g.PlayerID, g.Minute)) =
          goals.map (fun g => (matchID, g.PlayerID, g.Minute)) ∧
        (∀ n ∈ news, n.MatchID = matchID ∧ n.Deleted = false ∧ ∀ g ∈ db.goals, g.ID < n.ID) ∧
        ∀ k, k < goals.length → cf (i + k) = false := by
  induction goals with
  | nil =>
    intro i db db1 h
    simp [createGoals] at h
    exact ⟨[], by simp [← h], by simp, by simp, by simp⟩
  | cons g rest ih =>
    intro i db db1 h
    unfold createGoals at h
    by_cases hcf : cf i = true
    · simp [hcf] at h
    · simp only [hcf] at h
      obtain ⟨news, hdb, hmap, hnew, hcfs⟩ := ih (i + 1) (gormCreateGoal db matchID g) db1 h
      refine ⟨{ ID := freshID (db.goals.map Goal.ID), MatchID := matchID, PlayerID := g.PlayerID,
                Minute := g.Minute, Deleted := false } :: news, ?_, ?_, ?_, ?_⟩
      · rw [hdb]; simp [gormCreateGoal]
      · simp [hmap]
      · intro n hn
        rcases List.mem_cons.mp hn with rfl | hn
        · refine ⟨rfl, rfl, ?_⟩
          intro g0 hg0
          exact lt_freshID _ _ (List.mem_map_of_mem Goal.ID hg0)
        · obtain ⟨a, b, c⟩ := hnew n hn
          refine ⟨a, b, ?_⟩
          intro g0 hg0
          exact c g0 (by simp [gormCreateGoal, hg0])
      · intro k hk
        cases k with
        | zero => simpa using hcf
        | succ k =>
          have := hcfs k (by simpa using hk)
          rw [← this]; congr 1; omega

theorem createGoals_fault (cf : Nat → Bool) (matchID : Nat) (goals : List GoalInput) :
    ∀ (i : Nat) (db : DB) (k : Nat), k < goals.length → cf (i + k) = true →
      (createGoals cf matchID goals i db).2 ≠ none := by
  intro i db k hk hcf h
  have hex : ∃ db1, createGoals cf matchID goals i db = (db1, none) :=
    ⟨(createGoals cf matchID goals i db).1, Prod.ext rfl h⟩
  obtain ⟨db1, h1⟩ := hex
  obtain ⟨_, _, _, _, hall⟩ := createGoals_ok cf matchID goals i db db1 h1
  have := hall k hk
  rw [hcf] at this
  exact Bool.noConfusion this

/-- A result report that returned no error found the match, saved it with the
new scores and status, marked the old goals deleted and ran every insert. -/
theorem reportMatchResult_ok (f : Faults) (db : DB) (matchID : Nat) (hs as : Int)
    (goals : List GoalInput)
    (h : (matchService.ReportMatchResult f db matchID hs as goals).2 = none) :
    ∃ m, matchRepository.FindByID db matchID = some m ∧
      createGoals f.createGoal matchID goals 0
        (deleteGoalsOfMatch
          (gormSaveMatch db { m with HomeScore := some hs, AwayScore := some as,
                                     Status := Finished }) matchID) =
        ((matchService.ReportMatchResult f db matchID hs as goals).1, none) ∧
      f.save = false ∧ f.reload = false ∧ f.deleteGoals = false := by
  unfold matchService.ReportMatchResult at h ⊢
  cases hfind : f.find
  · simp only [hfind, Bool.false_eq_true, if_false] at h ⊢
    cases hm : matchRepository.FindByID db matchID with
    | none => simp [hm] at h
    | some m =>
      refine ⟨m, rfl, ?_⟩
      simp only [hm] at h ⊢
      unfold matchRepository.WithTransaction at h ⊢
      cases hb : f.begin
      · simp only [hb, Bool.false_eq_true, if_false] at h ⊢
        rcases hu : matchRepository.Update f.save f.reload db
          { m with HomeScore := some hs, AwayScore := some as, Status := Finished }
          with ⟨tx1, e⟩
        cases e with
        | some err => simp [hu] at h
        | none =>
          obtain ⟨hsv, hrl, htx⟩ := update_spec _ _ _ _ _ hu
          subst htx
          simp only [hu] at h ⊢
          cases hd : f.deleteGoals
          · simp only [hd, Bool.false_eq_true, if_false] at h ⊢
            rcases hc : createGoals f.createGoal matchID goals 0
              (deleteGoalsOfMatch (gormSaveMatch db
                { m with HomeScore := some hs, AwayScore := some as, Status := Finished })
                matchID) with ⟨tx2, e2⟩
            cases e2 with
            | some err => simp [hc] at h
            | none =>
              simp only [hc] at h ⊢
              cases hcm : f.commit
              · simp [hcm, hsv, hrl]
              · simp [hcm] at h
          · simp [hd] at h
      · simp [hb] at h
  · simp [hfind] at h

theorem deleteGoalsOfMatch_none_live (l : List Goal) (matchID : Nat) :
    (l.map (fun g => if g.MatchID == matchID && !g.Deleted then { g with Deleted := true }
      else g)).filter (fun g => g.MatchID == matchID && !g.Deleted) = [] := by
  induction l with
  | nil => rfl
  | cons x xs ih =>
    simp only [List.map_cons, List.filter_cons, ih]
    cases hx : (x.MatchID == matchID && !x.Deleted) <;> simp [hx]

theorem deleteGoalsOfMatch_other (l : List Goal) (matchID other : Nat) (hne : other ≠ matchID) :
    (l.map (fun g => if g.MatchID == matchID && !g.Deleted then { g with Deleted := true }
      else g)).filter (fun g => g.MatchID == other) = l.filter (fun g => g.MatchID == other) := by
  induction l with
  | nil => rfl
  | cons x xs ih =>
    simp only [List.map_cons, List.filter_cons, ih]
    cases hx : (x.MatchID == matchID && !x.Deleted)
    · simp
    · have h1 : x.MatchID = matchID := by simp at hx; exact hx.1
      have h2 : ¬ x.MatchID = other := by rw [h1]; exact fun h => hne h.symm
      simp [h2]

theorem deleteGoalsOfMatch_ids (l : List Goal) (matchID : Nat) :
    (l.map (fun g => if g.MatchID == matchID && !g.Deleted then { g with Deleted := true }
      else g)).map Goal.ID = l.map Goal.ID := by
  induction l with
  | nil => rfl
  | cons x xs ih =>
    simp only [List.map_cons, ih]
    cases hx : (x.MatchID == matchID && !x.Deleted) <;> simp

/-! ## Result reporter -/

/-- C1, at the failing input: match 1 of the sample store is finished 2-1 with
two goals, and `ReportMatchResult` with scores 5-0 and no goals returns no
error, overwrites the scores and removes the goals. -/
theorem reportMatchResult_rewrites_finished_match :
    (matchRepository.FindByID sampleDB 1).map
        (fun m => (m.HomeScore, m.AwayScore, m.Status)) = some (some 2, some 1, Finished) ∧
    (goalsOfMatch sampleDB 1).map (fun g => (g.PlayerID, g.Minute)) = [(1, 10), (2, 55)] ∧
    (matchService.ReportMatchResult noFaults sampleDB 1 5 0 []).2 = none ∧
    (matchRepository.FindByID (matchService.ReportMatchResult noFaults sampleDB 1 5 0 []).1 1).map
        (fun m => (m.HomeScore, m.AwayScore, m.Status)) = some (some 5, some 0, Finished) ∧
    goalsOfMatch (matchService.ReportMatchResult noFaults sampleDB 1 5 0 []).1 1 = [] := by
  decide

/-- C2, at the failing input: match 2 of the sample store is scheduled between
teams 1 and 2, player 3 plays for team 3, and `ReportMatchResult` with a goal
of player 3 returns no error and stores that goal. -/
theorem reportMatchResult_stores_outside_scorer :
    (matchRepository.FindByID sampleDB 2).map
        (fun m => (m.HomeTeamID, m.AwayTeamID, m.Status)) = some (1, 2, Scheduled) ∧
    (sampleDB.players.filter (fun p => p.ID == 3)).map Player.TeamID = [3] ∧
    (matchService.ReportMatchResult noFaults sampleDB 2 1 0 [⟨3, 12⟩]).2 = none ∧
    (goalsOfMatch (matchService.ReportMatchResult noFaults sampleDB 2 1 0 [⟨3, 12⟩]).1 2).map
        (fun g => (g.PlayerID, g.Minute)) = [(3, 12)] := by
  decide

/-- C3: after a `ReportMatchResult` that returned no error, the stored match is
finished with the reported scores, the live goals of the match are the
reported list in order (same player ids and minutes, `MatchID` set to the
match), and no goal row that was in the table before the call is among them. -/
theorem reportMatchResult_stores_result (f : Faults) (db : DB) (matchID : Nat) (hs as : Int)
    (goals : List GoalInput)
    (h : (matchService.ReportMatchResult f db matchID hs as goals).2 = none) :
    (∃ m, matchRepository.FindByID
        (matchService.ReportMatchResult f db matchID hs as goals).1 matchID = some m ∧
      m.Status = Finished ∧ m.HomeScore = some hs ∧ m.AwayScore = some as) ∧
    (goalsOfMatch (matchService.ReportMatchResult f db matchID hs as goals).1 matchID).map
        (fun g => (g.MatchID, g.PlayerID, g.Minute)) =
      goals.map (fun g => (matchID, g.PlayerID, g.Minute)) ∧
    ∀ g ∈ goalsOfMatch (matchService.ReportMatchResult f db matchID hs as goals).1 matchID,
      ∀ old ∈ db.goals, g.ID ≠ old.ID := by
  obtain ⟨m, hm, hc, _⟩ := reportMatchResult_ok f db matchID hs as goals h
  obtain ⟨_, hid, hlive⟩ := findByID_spec db matchID m hm
  obtain ⟨news, hdb, hmap, hnew, _⟩ := createGoals_ok _ _ _ _ _ _ hc
  have hsave := gormSaveMatch_find db matchID m
    { m with HomeScore := some hs, AwayScore := some as, Status := Finished } hm hid hlive
  have hgoals : goalsOfMatch (matchService.ReportMatchResult f db matchID hs as goals).1 matchID
      = news := by
    rw [hdb]
    unfold goalsOfMatch
    simp only [deleteGoalsOfMatch, List.filter_append, (gormSaveMatch_frame db _).2.2.1,
      deleteGoalsOfMatch_none_live, List.nil_append]
    rw [List.filter_eq_self]
    intro n hn
    obtain ⟨a, b, _⟩ := hnew n hn
    simp [a, b]
  refine ⟨⟨{ m with HomeScore := some hs, AwayScore := some as, Status := Finished },
    ?_, rfl, rfl, rfl⟩, ?_, ?_⟩
  · rw [hdb]
    exact hsave
  · rw [hgoals]
    exact hmap
  · rw [hgoals]
    intro g hg old hold
    obtain ⟨_, _, c⟩ := hnew g hg
    have hold2 : ∃ o2 ∈ (deleteGoalsOfMatch (gormSaveMatch db
        { m with HomeScore := some hs, AwayScore := some as, Status := Finished })
        matchID).goals, o2.ID = old.ID := by
      have hids : (deleteGoalsOfMatch (gormSaveMatch db
          { m with HomeScore := some hs, AwayScore := some as, Status := Finished })
          matchID).goals.map Goal.ID = db.goals.map Goal.ID := by
        simp only [deleteGoalsOfMatch, (gormSaveMatch_frame db _).2.2.1]
        exact deleteGoalsOfMatch_ids db.goals matchID
      have : old.ID ∈ db.goals.map Goal.ID := List.mem_map_of_mem Goal.ID hold
      rw [← hids] at this
      obtain ⟨o2, ho2, he⟩ := List.mem_map.mp this
      exact ⟨o2, ho2, he⟩
    obtain ⟨o2, ho2, he⟩ := hold2
    have := c o2 ho2
    omega

/-- C3, on the sample store: reporting 2-0 with goals of player 1 at minute 10
and player 2 at minute 55 on the scheduled match 2, which had one goal row. -/
theorem reportMatchResult_stores_result_witness :
    (matchService.ReportMatchResult noFaults sampleDB 2 2 0 [⟨1, 10⟩, ⟨2, 55⟩]).2 = none ∧
    ((∃ m, matchRepository.FindByID
        (matchService.ReportMatchResult noFaults sampleDB 2 2 0 [⟨1, 10⟩, ⟨2, 55⟩]).1 2 = some m ∧
      m.Status = Finished ∧ m.HomeScore = some 2 ∧ m.AwayScore = some 0) ∧
    (goalsOfMatch (matchService.ReportMatchResult noFaults sampleDB 2 2 0
        [⟨1, 10⟩, ⟨2, 55⟩]).1 2).map (fun g => (g.MatchID, g.PlayerID, g.Minute)) =
      [(⟨1, 10⟩ : GoalInput), ⟨2, 55⟩].map (fun g => (2, g.PlayerID, g.Minute)) ∧
    ∀ g ∈ goalsOfMatch (matchService.ReportMatchResult noFaults sampleDB 2 2 0
        [⟨1, 10⟩, ⟨2, 55⟩]).1 2, ∀ old ∈ sampleDB.goals, g.ID ≠ old.ID) :=
  ⟨by decide, reportMatchResult_stores_result noFaults sampleDB 2 2 0 [⟨1, 10⟩, ⟨2, 55⟩]
    (by decide)⟩

theorem withTransaction_error (b c : Bool) (db : DB) (txFunc : DB → DB × Option String)
    (h : (matchRepository.WithTransaction b c db txFunc).2 ≠ none) :
    (matchRepository.WithTransaction b c db txFunc).1 = db := by
  unfold matchRepository.WithTransaction at h ⊢
  cases b
  · rcases htx : txFunc db with ⟨tx, e⟩
    cases e <;> cases c <;> simp [htx] at h ⊢
  · simp

/-- A result report that returns an error leaves the store as it was. -/
theorem reportMatchResult_error_unchanged (f : Faults) (db : DB) (matchID : Nat) (hs as : Int)
    (goals : List GoalInput)
    (h : (matchService.ReportMatchResult f db matchID hs as goals).2 ≠ none) :
    (matchService.ReportMatchResult f db matchID hs as goals).1 = db := by
  unfold matchService.ReportMatchResult at h ⊢
  split
  · rfl
  · rename_i m hm
    rw [hm] at h
    exact withTransaction_error _ _ _ _ h

/-- C4: when a statement inside the transaction of `ReportMatchResult` fails
(the save of the match or its read-back, the deletion of the old goals, or the
insert of one of the reported goals), the call returns an error and the store
after the call is the store before it. -/
theorem reportMatchResult_all_or_nothing (f : Faults) (db : DB) (matchID : Nat) (hs as : Int)
    (goals : List GoalInput)
    (hfault : f.save = true ∨ f.reload = true ∨ f.deleteGoals = true ∨
      ∃ i, i < goals.length ∧ f.createGoal i = true) :
    (matchService.ReportMatchResult f db matchID hs as goals).2 ≠ none ∧
    (matchService.ReportMatchResult f db matchID hs as goals).1 = db := by
  have herr : (matchService.ReportMatchResult f db matchID hs as goals).2 ≠ none := by
    intro h
    obtain ⟨m, _, hc, hsv, hrl, hdel⟩ := reportMatchResult_ok f db matchID hs as goals h
    rcases hfault with h1 | h1 | h1 | ⟨i, hi, h1⟩
    · rw [hsv] at h1; exact Bool.noConfusion h1
    · rw [hrl] at h1; exact Bool.noConfusion h1
    · rw [hdel] at h1; exact Bool.noConfusion h1
    · have hcg := createGoals_fault f.createGoal matchID goals 0
        (deleteGoalsOfMatch (gormSaveMatch db
          { m with HomeScore := some hs, AwayScore := some as, Status := Finished }) matchID)
        i hi (by simpa using h1)
      rw [hc] at hcg
      exact hcg rfl
  exact ⟨herr, reportMatchResult_error_unchanged f db matchID hs as goals herr⟩

/-- C4, on the sample store: the insert of the second of two goals fails. -/
theorem reportMatchResult_all_or_nothing_witness :
    (secondInsertFails.save = true ∨ secondInsertFails.reload = true ∨
      secondInsertFails.deleteGoals = true ∨
      ∃ i, i < [(⟨1, 10⟩ : GoalInput), ⟨2, 55⟩].length ∧ secondInsertFails.createGoal i = true) ∧
    (matchService.ReportMatchResult secondInsertFails sampleDB 2 2 0
      [⟨1, 10⟩, ⟨2, 55⟩]).2 ≠ none ∧
    (matchService.ReportMatchResult secondInsertFails sampleDB 2 2 0
      [⟨1, 10⟩, ⟨2, 55⟩]).1 = sampleDB :=
  ⟨Or.inr (Or.inr (Or.inr ⟨1, by decide, by decide⟩)),
    reportMatchResult_all_or_nothing secondInsertFails sampleDB 2 2 0 [⟨1, 10⟩, ⟨2, 55⟩]
      (Or.inr (Or.inr (Or.inr ⟨1, by decide, by decide⟩)))⟩

/-- C5: `ReportMatchResult` on match `matchID` leaves the `teams` and `players`
tables as they are, and for every other match id the rows of that match and
the goal rows of that match are the same after the call as before. -/
theorem reportMatchResult_frame (f : Faults) (db : DB) (matchID : Nat) (hs as : Int)
    (goals : List GoalInput) (other : Nat) (hne : other ≠ matchID) :
    (matchService.ReportMatchResult f db matchID hs as goals).1.teams = db.teams ∧
    (matchService.ReportMatchResult f db matchID hs as goals).1.players = db.players ∧
    (matchService.ReportMatchResult f db matchID hs as goals).1.matchRows.filter
        (fun r => r.ID == other) = db.matchRows.filter (fun r => r.ID == other) ∧
    (matchService.ReportMatchResult f db matchID hs as goals).1.goals.filter
        (fun g => g.MatchID == other) = db.goals.filter (fun g => g.MatchID == other) := by
  by_cases h : (matchService.ReportMatchResult f db matchID hs as goals).2 = none
  · obtain ⟨m, hm, hc, _⟩ := reportMatchResult_ok f db matchID hs as goals h
    obtain ⟨_, hid, _⟩ := findByID_spec db matchID m hm
    obtain ⟨news, hdb, _, hnew, _⟩ := createGoals_ok _ _ _ _ _ _ hc
    obtain ⟨ft, fp, fg, fm⟩ := gormSaveMatch_frame db
      { m with HomeScore := some hs, AwayScore := some as, Status := Finished }
    rw [hdb]
    refine ⟨ft, fp, fm other (by simpa [hid] using hne), ?_⟩
    simp only [deleteGoalsOfMatch, fg, List.filter_append,
      deleteGoalsOfMatch_other db.goals matchID other hne]
    have hnone : news.filter (fun g => g.MatchID == other) = [] := by
      rw [List.filter_eq_nil_iff]
      intro n hn
      have := (hnew n hn).1
      simp only [this, beq_iff_eq]
      exact fun h => hne h.symm
    rw [hnone, List.append_nil]
  · rw [reportMatchResult_error_unchanged f db matchID hs as goals h]
    exact ⟨rfl, rfl, rfl, rfl⟩

/-- C5, on the sample store: a report on match 2 seen from match 1. -/
theorem reportMatchResult_frame_witness :
    (1 : Nat) ≠ 2 ∧
    ((matchService.ReportMatchResult noFaults sampleDB 2 2 0 [⟨1, 10⟩, ⟨2, 55⟩]).1.teams =
      sampleDB.teams ∧
    (matchService.ReportMatchResult noFaults sampleDB 2 2 0 [⟨1, 10⟩, ⟨2, 55⟩]).1.players =
      sampleDB.players ∧
    (matchService.ReportMatchResult noFaults sampleDB 2 2 0 [⟨1, 10⟩, ⟨2, 55⟩]).1.matchRows.filter
        (fun r => r.ID == 1) = sampleDB.matchRows.filter (fun r => r.ID == 1) ∧
    (matchService.ReportMatchResult noFaults sampleDB 2 2 0 [⟨1, 10⟩, ⟨2, 55⟩]).1.goals.filter
        (fun g => g.MatchID == 1) = sampleDB.goals.filter (fun g => g.MatchID == 1)) :=
  ⟨by decide, reportMatchResult_frame noFaults sampleDB 2 2 0 [⟨1, 10⟩, ⟨2, 55⟩] 1 (by decide)⟩

/-! ## Lemmas on the standings loop -/

theorem addTallies_single_skip (k : Nat) (m : Match) (r : TeamStanding)
    (h : counted m = false) : addTallies k [m] r = r := by
  simp [addTallies, refPlayed, refWon, refDrawn, refLost, refGoalsFor, refGoalsAway,
    homeMatches, awayMatches, List.filter_cons, h]

theorem refPlayed_single (k : Nat) (m : Match) (hc : counted m = true) :
    refPlayed k [m] = (if m.HomeTeamID == k then 1 else 0) +
      (if m.AwayTeamID == k then 1 else 0) := by
  unfold refPlayed homeMatches awayMatches
  cases h1 : (m.HomeTeamID == k) <;> cases h2 : (m.AwayTeamID == k) <;>
    simp [List.filter_cons, hc, h1, h2]

theorem refWon_single (k : Nat) (m : Match) (hs as : Int) (hc : counted m = true)
    (hhs : m.HomeScore = some hs) (has : m.AwayScore = some as) :
    refWon k [m] = (if m.HomeTeamID == k then (if hs > as then 1 else 0) else 0) +
      (if m.AwayTeamID == k then (if as > hs then 1 else 0) else 0) := by
  unfold refWon homeMatches awayMatches
  cases h1 : (m.HomeTeamID == k) <;> cases h2 : (m.AwayTeamID == k) <;>
    by_cases h3 : hs > as <;> by_cases h4 : as > hs <;>
    simp [List.filter_cons, hc, h1, h2, h3, h4, homeGoals, awayGoals, hhs, has]

theorem refDrawn_single (k : Nat) (m : Match) (hs as : Int) (hc : counted m = true)
    (hhs : m.HomeScore = some hs) (has : m.AwayScore = some as) :
    refDrawn k [m] = (if m.HomeTeamID == k then (if hs = as then 1 else 0) else 0) +
      (if m.AwayTeamID == k then (if as = hs then 1 else 0) else 0) := by
  unfold refDrawn homeMatches awayMatches
  rcases eq_or_ne hs as with h3 | h3
  · subst h3
    cases h1 : (m.HomeTeamID == k) <;> cases h2 : (m.AwayTeamID == k) <;>
      simp [List.filter_cons, hc, h1, h2, homeGoals, awayGoals, hhs, has]
  · have h4 : ¬ as = hs := fun h => h3 h.symm
    cases h1 : (m.HomeTeamID == k) <;> cases h2 : (m.AwayTeamID == k) <;>
      simp [List.filter_cons, hc, h1, h2, h3, h4, homeGoals, awayGoals, hhs, has]

theorem refLost_single (k : Nat) (m : Match) (hs as : Int) (hc : counted m = true)
    (hhs : m.HomeScore = some hs) (has : m.AwayScore = some as) :
    refLost k [m] = (if m.HomeTeamID == k then (if hs < as then 1 else 0) else 0) +
      (if m.AwayTeamID == k then (if as < hs then 1 else 0) else 0) := by
  unfold refLost homeMatches awayMatches
  cases h1 : (m.HomeTeamID == k) <;> cases h2 : (m.AwayTeamID == k) <;>
    by_cases h3 : hs < as <;> by_cases h4 : as < hs <;>
    simp [List.filter_cons, hc, h1, h2, h3, h4, homeGoals, awayGoals, hhs, has]

theorem refGoalsFor_single (k : Nat) (m : Match) (hs as : Int) (hc : counted m = true)
    (hhs : m.HomeScore = some hs) (has : m.AwayScore = some as) :
    refGoalsFor k [m] = (if m.HomeTeamID == k then hs else 0) +
      (if m.AwayTeamID == k then as else 0) := by
  unfold refGoalsFor homeMatches awayMatches
  cases h1 : (m.HomeTeamID == k) <;> cases h2 : (m.AwayTeamID == k) <;>
    simp [List.filter_cons, hc, h1, h2, homeGoals, awayGoals, hhs, has]

theorem refGoalsAway_single (k : Nat) (m : Match) (hs as : Int) (hc : counted m = true)
    (hhs : m.HomeScore = some hs) (has : m.AwayScore = some as) :
    refGoalsAway k [m] = (if m.HomeTeamID == k then as else 0) +
      (if m.AwayTeamID == k then hs else 0) := by
  unfold refGoalsAway homeMatches awayMatches
  cases h1 : (m.HomeTeamID == k) <;> cases h2 : (m.AwayTeamID == k) <;>
    simp [List.filter_cons, hc, h1, h2, homeGoals, awayGoals, hhs, has]

theorem mapModify_eq (st : StandingsMap) (k : Nat) (f : TeamStanding → TeamStanding) :
    mapModify st k f = st.map (modEntry k f) := rfl

theorem modEntry_apply (k k1 : Nat) (f : TeamStanding → TeamStanding) (r : TeamStanding) :
    modEntry k f (k1, r) = (k1, if k1 == k then f r else r) := by
  unfold modEntry
  cases h : (k1 == k) <;> simp [h]

theorem processMatch_eq_map (st st1 : StandingsMap) (m : Match)
    (h : processMatch st m = some st1) :
    st1 = st.map (fun e => (e.1, addTallies e.1 [m] e.2)) := by
  unfold processMatch at h
  split at h
  · rename_i hs as hhs has
    by_cases hst : m.Status = Finished
    · have hc : counted m = true := by simp [counted, hst, hhs, has]
      simp only [hst, bne_self_eq_false, Bool.false_eq_true, if_false] at h
      split at h
      · have hpoint : ∀ (k : Nat) (r : TeamStanding), addTallies k [m] r =
            { r with
              Played := r.Played + ((if k == m.HomeTeamID then 1 else 0) +
                (if k == m.AwayTeamID then 1 else 0))
              Won := r.Won + ((if k == m.HomeTeamID then (if hs > as then 1 else 0) else 0) +
                (if k == m.AwayTeamID then (if as > hs then 1 else 0) else 0))
              Drawn := r.Drawn + ((if k == m.HomeTeamID then (if hs = as then 1 else 0) else 0) +
                (if k == m.AwayTeamID then (if as = hs then 1 else 0) else 0))
              Lost := r.Lost + ((if k == m.HomeTeamID then (if hs < as then 1 else 0) else 0) +
                (if k == m.AwayTeamID then (if as < hs then 1 else 0) else 0))
              GoalsFor := r.GoalsFor + ((if k == m.HomeTeamID then hs else 0) +
                (if k == m.AwayTeamID then as else 0))
              GoalsAway := r.GoalsAway + ((if k == m.HomeTeamID then as else 0) +
                (if k == m.AwayTeamID then hs else 0))
              Points := r.Points +
                (3 * ((if k == m.HomeTeamID then (if hs > as then 1 else 0) else 0) +
                  (if k == m.AwayTeamID then (if as > hs then 1 else 0) else 0)) +
                ((if k == m.HomeTeamID then (if hs = as then 1 else 0) else 0) +
                  (if k == m.AwayTeamID then (if as = hs then 1 else 0) else 0))) } := by
          intro k r
          have c1 : (m.HomeTeamID == k) = (k == m.HomeTeamID) := BEq.comm
          have c2 : (m.AwayTeamID == k) = (k == m.AwayTeamID) := BEq.comm
          rw [addTallies, refPlayed_single k m hc, refWon_single k m hs as hc hhs has,
            refDrawn_single k m hs as hc hhs has, refLost_single k m hs as hc hhs has,
            refGoalsFor_single k m hs as hc hhs has, refGoalsAway_single k m hs as hc hhs has,
            c1, c2]
        rcases lt_trichotomy hs as with hlt | heq | hgt
        · have h1 : ¬ hs > as := not_lt.mpr (le_of_lt hlt)
          have h2 : ¬ hs = as := ne_of_lt hlt
          have h3 : ¬ as = hs := fun h => h2 h.symm
          simp only [h1, hlt, if_true, if_false, Option.some.injEq] at h
          subst h
          simp only [mapModify_eq, List.map_map]
          apply List.map_congr_left
          intro e _
          obtain ⟨k, r⟩ := e
          rw [hpoint]
          cases hk1 : (k == m.HomeTeamID) <;> cases hk2 : (k == m.AwayTeamID) <;>
            simp [modEntry_apply, hk1, hk2, h1, h2, h3, hlt] <;> omega
        · subst heq
          simp only [gt_iff_lt, lt_self_iff_false, if_false, Option.some.injEq] at h
          subst h
          simp only [mapModify_eq, List.map_map]
          apply List.map_congr_left
          intro e _
          obtain ⟨k, r⟩ := e
          rw [hpoint]
          cases hk1 : (k == m.HomeTeamID) <;> cases hk2 : (k == m.AwayTeamID) <;>
            simp [modEntry_apply, hk1, hk2] <;> omega
        · have h1 : ¬ hs < as := not_lt.mpr (le_of_lt hgt)
          have h2 : ¬ hs = as := fun h => (ne_of_lt hgt) h.symm
          have h3 : ¬ as = hs := ne_of_lt hgt
          have h4 : hs > as := hgt
          simp only [h4, if_true, Option.some.injEq] at h
          subst h
          simp only [mapModify_eq, List.map_map]
          apply List.map_congr_left
          intro e _
          obtain ⟨k, r⟩ := e
          rw [hpoint]
          cases hk1 : (k == m.HomeTeamID) <;> cases hk2 : (k == m.AwayTeamID) <;>
            simp [modEntry_apply, hk1, hk2, h1, h2, h3, hgt] <;> omega
      · exact Option.noConfusion h
    · have hc : counted m = false := by simp [counted, hst]
      have : (m.Status != Finished) = true := by simp [hst]
      simp only [this, if_true, Option.some.injEq] at h
      subst h
      simp [addTallies_single_skip _ _ _ hc]
  · rename_i hnot
    have hc : counted m = false := by
      unfold counted
      cases hh : m.HomeScore <;> cases ha : m.AwayScore <;> simp
      exact absurd ha (fun h2 => hnot _ _ hh h2)
    simp only [Option.some.injEq] at h
    subst h
    simp [addTallies_single_skip _ _ _ hc]

theorem addTallies_nil (k : Nat) (r : TeamStanding) : addTallies k [] r = r := by
  simp [addTallies, refPlayed, refWon, refDrawn, refLost, refGoalsFor, refGoalsAway,
    homeMatches, awayMatches]

theorem ref_cons (k : Nat) (m : Match) (ms : List Match) :
    refPlayed k (m :: ms) = refPlayed k [m] + refPlayed k ms ∧
    refWon k (m :: ms) = refWon k [m] + refWon k ms ∧
    refDrawn k (m :: ms) = refDrawn k [m] + refDrawn k ms ∧
    refLost k (m :: ms) = refLost k [m] + refLost k ms ∧
    refGoalsFor k (m :: ms) = refGoalsFor k [m] + refGoalsFor k ms ∧
    refGoalsAway k (m :: ms) = refGoalsAway k [m] + refGoalsAway k ms := by
  have hsplit : m :: ms = [m] ++ ms := rfl
  refine ⟨?_, ?_, ?_, ?_, ?_, ?_⟩
  · unfold refPlayed homeMatches awayMatches
    rw [hsplit]
    simp only [List.filter_append, List.length_append, Nat.cast_add]
    omega
  · unfold refWon homeMatches awayMatches
    rw [hsplit]
    simp only [List.filter_append, List.length_append, Nat.cast_add]
    omega
  · unfold refDrawn homeMatches awayMatches
    rw [hsplit]
    simp only [List.filter_append, List.length_append, Nat.cast_add]
    omega
  · unfold refLost homeMatches awayMatches
    rw [hsplit]
    simp only [List.filter_append, List.length_append, Nat.cast_add]
    omega
  · unfold refGoalsFor homeMatches awayMatches
    rw [hsplit]
    simp only [List.filter_append, List.map_append, List.sum_append]
    omega
  · unfold refGoalsAway homeMatches awayMatches
    rw [hsplit]
    simp only [List.filter_append, List.map_append, List.sum_append]
    omega

theorem addTallies_cons (k : Nat) (m : Match) (ms : List Match) (r : TeamStanding) :
    addTallies k (m :: ms) r = addTallies k ms (addTallies k [m] r) := by
  obtain ⟨h1, h2, h3, h4, h5, h6⟩ := ref_cons k m ms
  unfold addTallies
  rw [h1, h2, h3, h4, h5, h6]
  simp only [TeamStanding.mk.injEq, true_and]
  refine ⟨?_, ?_, ?_, ?_, ?_, ?_, ?_⟩ <;> omega

/-- The loop over the matches, when it runs to its end, adds to the row of
every key the reference tallies of that key. -/
theorem tallyMatches_eq_map (ms : List Match) :
    ∀ st st1 : StandingsMap, tallyMatches st ms = some st1 →
      st1 = st.map (fun e => (e.1, addTallies e.1 ms e.2)) := by
  induction ms with
  | nil =>
    intro st st1 h
    simp only [tallyMatches, Option.some.injEq] at h
    subst h
    simp [addTallies_nil]
  | cons m rest ih =>
    intro st st1 h
    unfold tallyMatches at h
    cases hp : processMatch st m with
    | none => simp [hp] at h
    | some st2 =>
      simp only [hp] at h
      rw [ih st2 st1 h, processMatch_eq_map st st2 m hp, List.map_map]
      apply List.map_congr_left
      intro e _
      show (e.1, addTallies e.1 rest (addTallies e.1 [m] e.2)) = _
      rw [addTallies_cons e.1 m rest e.2]

theorem mapGet_isSome (st : StandingsMap) (k : Nat) (h : k ∈ st.map Prod.fst) :
    ∃ r, mapGet st k = some r := by
  unfold mapGet
  obtain ⟨e, he, hk⟩ := List.mem_map.mp h
  cases hf : st.find? (fun e => e.1 == k) with
  | none =>
    rw [List.find?_eq_none] at hf
    have hne := hf e he
    rw [hk] at hne
    simp at hne
  | some e1 => exact ⟨e1.2, rfl⟩

theorem processMatch_total (st : StandingsMap) (m : Match)
    (h : counted m = true → m.HomeTeamID ∈ st.map Prod.fst ∧ m.AwayTeamID ∈ st.map Prod.fst) :
    ∃ st1, processMatch st m = some st1 := by
  unfold processMatch
  split
  · rename_i hs as hhs has
    by_cases hst : m.Status = Finished
    · have hc : counted m = true := by simp [counted, hst, hhs, has]
      obtain ⟨r1, hr1⟩ := mapGet_isSome st _ (h hc).1
      obtain ⟨r2, hr2⟩ := mapGet_isSome st _ (h hc).2
      simp only [hst, bne_self_eq_false, Bool.false_eq_true, if_false, hr1, hr2]
      split
      · exact ⟨_, rfl⟩
      · split
        · exact ⟨_, rfl⟩
        · exact ⟨_, rfl⟩
    · have : (m.Status != Finished) = true := by simp [hst]
      simp only [this, if_true]
      exact ⟨_, rfl⟩
  · exact ⟨_, rfl⟩

theorem tallyMatches_total (ms : List Match) :
    ∀ st : StandingsMap,
      (∀ m ∈ ms, counted m = true →
        m.HomeTeamID ∈ st.map Prod.fst ∧ m.AwayTeamID ∈ st.map Prod.fst) →
      ∃ st1, tallyMatches st ms = some st1 := by
  induction ms with
  | nil => intro st _; exact ⟨st, rfl⟩
  | cons m rest ih =>
    intro st h
    obtain ⟨st2, hp⟩ := processMatch_total st m (h m (List.mem_cons_self m rest))
    have hkeys : st2.map Prod.fst = st.map Prod.fst := by
      rw [processMatch_eq_map st st2 m hp, List.map_map]
      apply List.map_congr_left
      intro e _
      rfl
    unfold tallyMatches
    simp only [hp]
    apply ih st2
    intro m1 hm1 hc
    rw [hkeys]
    exact h m1 (List.mem_cons_of_mem m hm1) hc

theorem mem_mapSet (st : StandingsMap) (k : Nat) (v : TeamStanding) (e : Nat × TeamStanding)
    (h : e ∈ mapSet st k v) : e ∈ st ∨ e = (k, v) := by
  unfold mapSet at h
  split at h
  · obtain ⟨e0, he0, heq⟩ := List.mem_map.mp h
    by_cases hk : (e0.1 == k) = true
    · simp only [hk, if_true] at heq
      exact Or.inr heq.symm
    · simp only [hk, if_false] at heq
      exact Or.inl (heq ▸ he0)
  · rcases List.mem_append.mp h with h1 | h1
    · exact Or.inl h1
    · exact Or.inr (List.mem_singleton.mp h1)

theorem mapSet_of_not_mem (st : StandingsMap) (k : Nat) (v : TeamStanding)
    (h : k ∉ st.map Prod.fst) : mapSet st k v = st ++ [(k, v)] := by
  unfold mapSet
  have hany : st.any (fun e => e.1 == k) = false := by
    rw [List.any_eq_false]
    intro e he hk
    exact h (List.mem_map.mpr ⟨e, he, by simpa using hk⟩)
  simp [hany]

theorem initStandings_eq (teams : List Team) :
    initStandings teams = teams.foldl (fun st t => mapSet st t.ID (zeroStanding t)) [] := rfl

theorem foldl_mapSet_mem (all : List Team) (ts : List Team) :
    ∀ acc : StandingsMap, (∀ t ∈ ts, t ∈ all) →
      (∀ e ∈ acc, ∃ t ∈ all, e = (t.ID, zeroStanding t)) →
      ∀ e ∈ ts.foldl (fun st t => mapSet st t.ID (zeroStanding t)) acc,
        ∃ t ∈ all, e = (t.ID, zeroStanding t) := by
  induction ts with
  | nil => intro acc _ hacc e he; exact hacc e he
  | cons t rest ih =>
    intro acc hsub hacc e he
    simp only [List.foldl_cons] at he
    refine ih (mapSet acc t.ID (zeroStanding t)) (fun t1 h1 => hsub t1 (List.mem_cons_of_mem t h1))
      ?_ e he
    intro e1 he1
    rcases mem_mapSet acc _ _ e1 he1 with h1 | h1
    · exact hacc e1 h1
    · exact ⟨t, hsub t (List.mem_cons_self t rest), h1⟩

/-- Every entry of the map after the first loop is the all-zero row of a team
of the list, stored under the id of that team. -/
theorem initStandings_mem (teams : List Team) (e : Nat × TeamStanding)
    (he : e ∈ initStandings teams) : ∃ t ∈ teams, e = (t.ID, zeroStanding t) := by
  rw [initStandings_eq] at he
  exact foldl_mapSet_mem teams teams [] (fun _ h => h) (by simp) e he

theorem foldl_mapSet_nodup (ts : List Team) :
    ∀ acc : StandingsMap, (∀ t ∈ ts, t.ID ∉ acc.map Prod.fst) → (ts.map Team.ID).Nodup →
      ts.foldl (fun st t => mapSet st t.ID (zeroStanding t)) acc =
        acc ++ ts.map (fun t => (t.ID, zeroStanding t)) := by
  induction ts with
  | nil => intro acc _ _; simp
  | cons t rest ih =>
    intro acc hnot hnd
    simp only [List.map_cons, List.nodup_cons] at hnd
    simp only [List.foldl_cons]
    rw [mapSet_of_not_mem acc t.ID _ (hnot t (List.mem_cons_self t rest))]
    rw [ih (acc ++ [(t.ID, zeroStanding t)]) ?_ hnd.2]
    · simp
    · intro t1 h1
      simp only [List.map_append, List.map_cons, List.map_nil, List.mem_append,
        List.mem_singleton, not_or]
      refine ⟨hnot t1 (List.mem_cons_of_mem t h1), ?_⟩
      intro heq
      exact hnd.1 (heq ▸ List.mem_map_of_mem Team.ID h1)

/-- With pairwise distinct team ids the first loop stores one all-zero row per
team, in list order. -/
theorem initStandings_nodup (teams : List Team) (h : (teams.map Team.ID).Nodup) :
    initStandings teams = teams.map (fun t => (t.ID, zeroStanding t)) := by
  rw [initStandings_eq, foldl_mapSet_nodup teams [] (by simp) h]
  simp

theorem sortSlice_perm {α : Type} (less : α → α → Bool) (x : List α) :
    (sortSlice less x).Perm x := by
  unfold sortSlice
  exact List.perm_insertionSort _ x

/-- The rows `GetStandings` returns are, up to order, the rows of the map after
the first loop with the reference tallies added. -/
theorem getStandings_perm (o : MapOrder) (teams : List Team) (ms : List Match)
    (rows : List TeamStanding) (h : reportService.GetStandings o teams ms = some rows) :
    rows.Perm ((initStandings teams).map (fun e => addTallies e.1 ms e.2)) := by
  unfold reportService.GetStandings at h
  cases ht : tallyMatches (initStandings teams) ms with
  | none => simp [ht] at h
  | some st =>
    simp only [ht, Option.some.injEq] at h
    subst h
    have hst := tallyMatches_eq_map ms _ _ ht
    refine (sortSlice_perm _ _).trans ((o.perm _).trans ?_)
    rw [hst, List.map_map]
    exact List.Perm.refl _

/-- Every row `GetStandings` returns is the all-zero row of a listed team with
the reference tallies of that team added. -/
theorem getStandings_row (o : MapOrder) (teams : List Team) (ms : List Match)
    (rows : List TeamStanding) (h : reportService.GetStandings o teams ms = some rows)
    (r : TeamStanding) (hr : r ∈ rows) :
    ∃ t ∈ teams, r = addTallies t.ID ms (zeroStanding t) := by
  have hp := getStandings_perm o teams ms rows h
  obtain ⟨e, he, hre⟩ := List.mem_map.mp (hp.mem_iff.mp hr)
  obtain ⟨t, ht, het⟩ := initStandings_mem teams e he
  subst het
  exact ⟨t, ht, hre.symm⟩

theorem processMatch_skip (st : StandingsMap) (m : Match) (h : counted m = false) :
    processMatch st m = some st := by
  unfold processMatch
  split
  · rename_i hs as hhs has
    have hst : (m.Status != Finished) = true := by
      simp [counted, hhs, has] at h
      simpa using h
    simp [hst]
  · rfl

theorem refs_zero (k : Nat) (ms : List Match)
    (h : ∀ m ∈ ms, counted m = true → m.HomeTeamID ≠ k ∧ m.AwayTeamID ≠ k) :
    refPlayed k ms = 0 ∧ refWon k ms = 0 ∧ refDrawn k ms = 0 ∧ refLost k ms = 0 ∧
    refGoalsFor k ms = 0 ∧ refGoalsAway k ms = 0 := by
  have h1 : homeMatches k ms = [] := by
    unfold homeMatches
    rw [List.filter_eq_nil_iff]
    intro m hm hcm
    simp only [Bool.and_eq_true, beq_iff_eq] at hcm
    exact (h m hm hcm.1).1 hcm.2
  have h2 : awayMatches k ms = [] := by
    unfold awayMatches
    rw [List.filter_eq_nil_iff]
    intro m hm hcm
    simp only [Bool.and_eq_true, beq_iff_eq] at hcm
    exact (h m hm hcm.1).2 hcm.2
  simp [refPlayed, refWon, refDrawn, refLost, refGoalsFor, refGoalsAway, h1, h2]

theorem counted_scores (m : Match) (h : counted m = true) :
    m.Status = Finished ∧ ∃ hs as, m.HomeScore = some hs ∧ m.AwayScore = some as := by
  unfold counted at h
  simp only [Bool.and_eq_true, beq_iff_eq, Option.isSome_iff_exists] at h
  obtain ⟨⟨h1, hs, h2⟩, as, h3⟩ := h
  exact ⟨h1, hs, as, h2, h3⟩

theorem refPlayed_split (k : Nat) (ms : List Match) :
    refPlayed k ms = refWon k ms + refDrawn k ms + refLost k ms := by
  induction ms with
  | nil => simp [refPlayed, refWon, refDrawn, refLost, homeMatches, awayMatches]
  | cons m rest ih =>
    obtain ⟨h1, h2, h3, h4, _, _⟩ := ref_cons k m rest
    rw [h1, h2, h3, h4, ih]
    have hsingle : refPlayed k [m] = refWon k [m] + refDrawn k [m] + refLost k [m] := by
      cases hc : counted m
      · have hz := refs_zero k [m] (by
          intro m1 hm1 hc1
          rw [List.mem_singleton.mp hm1, hc] at hc1
          exact Bool.noConfusion hc1)
        omega
      · obtain ⟨_, hs, as, hhs, has⟩ := counted_scores m hc
        rw [refPlayed_single k m hc, refWon_single k m hs as hc hhs has,
          refDrawn_single k m hs as hc hhs has, refLost_single k m hs as hc hhs has]
        rcases lt_trichotomy hs as with hlt | heq | hgt
        · have a1 : ¬ hs > as := not_lt.mpr (le_of_lt hlt)
          have a2 : ¬ hs = as := ne_of_lt hlt
          have a3 : ¬ as = hs := fun h => a2 h.symm
          have a4 : as > hs := hlt
          have a5 : ¬ as < hs := a1
          simp only [a1, a2, a3, a4, a5, hlt, if_true, if_false]
          split <;> split <;> omega
        · subst heq
          simp only [gt_iff_lt, lt_self_iff_false, if_true, if_false]
          split <;> split <;> omega
        · have a1 : ¬ hs < as := not_lt.mpr (le_of_lt hgt)
          have a2 : ¬ as = hs := ne_of_lt hgt
          have a3 : ¬ hs = as := fun h => a2 h.symm
          have a4 : hs > as := hgt
          have a5 : ¬ as > hs := a1
          simp only [a1, a2, a3, a4, a5, hgt, if_true, if_false]
          split <;> split <;> omega
    omega

/-- C6, where the claim as stated fails: a finished match whose away team is not
in the team list makes `GetStandings` return no rows at all, and two team
records under one id yield a single row. -/
theorem getStandings_not_one_row_per_team :
    reportService.GetStandings insertionOrder [⟨1, "Team A", false⟩]
      [⟨1, 10, 1, 2, some 1, some 0, Finished, false⟩] = none ∧
    reportService.GetStandings insertionOrder [⟨1, "Team A", false⟩, ⟨1, "Team B", false⟩] [] =
      some [⟨1, "Team B", 0, 0, 0, 0, 0, 0, 0⟩] := by
  decide

/-- C6, amended: when the team ids are pairwise distinct and every finished
match with both scores is between listed teams, `GetStandings` returns rows
that are, up to order, exactly the (id, name) pairs of the team list, and the
row of a team that is home or away in no finished match is zero in played,
won, drawn, lost, goals for, goals against and points. -/
theorem getStandings_one_row_per_team (o : MapOrder) (teams : List Team) (ms : List Match)
    (hids : (teams.map Team.ID).Nodup)
    (hrefs : ∀ m ∈ ms, counted m = true →
      m.HomeTeamID ∈ teams.map Team.ID ∧ m.AwayTeamID ∈ teams.map Team.ID) :
    ∃ rows, reportService.GetStandings o teams ms = some rows ∧
      (rows.map (fun r => (r.TeamID, r.TeamName))).Perm (teams.map (fun t => (t.ID, t.Name))) ∧
      ∀ r ∈ rows,
        (∀ m ∈ ms, m.Status = Finished → m.HomeTeamID ≠ r.TeamID ∧ m.AwayTeamID ≠ r.TeamID) →
        r.Played = 0 ∧ r.Won = 0 ∧ r.Drawn = 0 ∧ r.Lost = 0 ∧ r.GoalsFor = 0 ∧
          r.GoalsAway = 0 ∧ r.Points = 0 := by
  have hinit := initStandings_nodup teams hids
  have hkeys : (initStandings teams).map Prod.fst = teams.map Team.ID := by
    rw [hinit, List.map_map]
    rfl
  obtain ⟨st, hst⟩ := tallyMatches_total ms (initStandings teams) (by rw [hkeys]; exact hrefs)
  have hget : reportService.GetStandings o teams ms =
      some (sortSlice standingLess (o.iterate (st.map Prod.snd))) := by
    unfold reportService.GetStandings
    rw [hst]
  refine ⟨_, hget, ?_, ?_⟩
  · have hp := getStandings_perm o teams ms _ hget
    refine (hp.map _).trans ?_
    rw [hinit, List.map_map, List.map_map]
    exact List.Perm.refl _
  · intro r hr hidle
    obtain ⟨t, _, hrt⟩ := getStandings_row o teams ms _ hget r hr
    have hid : r.TeamID = t.ID := by rw [hrt]; rfl
    obtain ⟨z1, z2, z3, z4, z5, z6⟩ := refs_zero t.ID ms (by
      intro m hm hc
      rw [← hid]
      exact hidle m hm (counted_scores m hc).1)
    rw [hrt]
    simp [addTallies, zeroStanding, z1, z2, z3, z4, z5, z6]

/-- C6, amended, on the sample league: five teams, Team E idle. -/
theorem getStandings_one_row_per_team_witness :
    (leagueTeams.map Team.ID).Nodup ∧
    (∀ m ∈ leagueMatches, counted m = true →
      m.HomeTeamID ∈ leagueTeams.map Team.ID ∧ m.AwayTeamID ∈ leagueTeams.map Team.ID) ∧
    ∃ rows, reportService.GetStandings reverseOrder leagueTeams leagueMatches = some rows ∧
      (rows.map (fun r => (r.TeamID, r.TeamName))).Perm
        (leagueTeams.map (fun t => (t.ID, t.Name))) ∧
      ∀ r ∈ rows,
        (∀ m ∈ leagueMatches, m.Status = Finished →
          m.HomeTeamID ≠ r.TeamID ∧ m.AwayTeamID ≠ r.TeamID) →
        r.Played = 0 ∧ r.Won = 0 ∧ r.Drawn = 0 ∧ r.Lost = 0 ∧ r.GoalsFor = 0 ∧
          r.GoalsAway = 0 ∧ r.Points = 0 :=
  ⟨by decide, by decide,
    getStandings_one_row_per_team reverseOrder leagueTeams leagueMatches (by decide) (by decide)⟩

/-- C8: in every row `GetStandings` returns, points are three times the wins
plus the draws, and played is the sum of won, drawn and lost. -/
theorem getStandings_points (o : MapOrder) (teams : List Team) (ms : List Match)
    (rows : List TeamStanding) (r : TeamStanding)
    (h : reportService.GetStandings o teams ms = some rows) (hr : r ∈ rows) :
    r.Points = 3 * r.Won + r.Drawn ∧ r.Played = r.Won + r.Drawn + r.Lost := by
  obtain ⟨t, _, hrt⟩ := getStandings_row o teams ms rows h r hr
  have hsplit := refPlayed_split t.ID ms
  rw [hrt]
  simp only [addTallies, zeroStanding, zero_add]
  exact ⟨trivial, hsplit⟩

/-- C8, on the sample cup: Team E has two wins, a draw and a loss in four
finished matches, and seven points. -/
theorem getStandings_points_witness :
    reportService.GetStandings insertionOrder cupTeams cupMatches = some [cupRowE, cupRowF] ∧
    cupRowE ∈ [cupRowE, cupRowF] ∧
    (cupRowE.Won = 2 ∧ cupRowE.Drawn = 1 ∧ cupRowE.Lost = 1 ∧ cupRowE.Points = 7) ∧
    (cupRowE.Points = 3 * cupRowE.Won + cupRowE.Drawn ∧
      cupRowE.Played = cupRowE.Won + cupRowE.Drawn + cupRowE.Lost) :=
  ⟨by decide, by decide, by decide,
    getStandings_points insertionOrder cupTeams cupMatches [cupRowE, cupRowF] cupRowE
      (by decide) (by decide)⟩

/-- C10, at the failing input: two teams without a finished match tie on every
sort key, and the list `GetStandings` returns for the same teams and matches
follows the order in which the map happens to be visited. -/
theorem getStandings_depends_on_map_order :
    reportService.GetStandings insertionOrder [⟨1, "Team A", false⟩, ⟨2, "Team B", false⟩] [] =
      some [⟨1, "Team A", 0, 0, 0, 0, 0, 0, 0⟩, ⟨2, "Team B", 0, 0, 0, 0, 0, 0, 0⟩] ∧
    reportService.GetStandings reverseOrder [⟨1, "Team A", false⟩, ⟨2, "Team B", false⟩] [] =
      some [⟨2, "Team B", 0, 0, 0, 0, 0, 0, 0⟩, ⟨1, "Team A", 0, 0, 0, 0, 0, 0, 0⟩] := by
  decide

/-! ## Match report of the single-file program -/

theorem ofNat_digit (d : Nat) (h : d < 10) : Char.ofNat (48 + d) = decimalDigit d := by
  unfold decimalDigit
  interval_cases d <;> rfl

/-- The digit loop of `strconvItoa` on a number that fits the `pos` bytes left
of the buffer puts its base-10 digits in front of the bytes written so far. -/
theorem itoaLoop_digits (pos : Nat) :
    ∀ (n : Nat) (b : List Char), n < 10 ^ pos →
      itoaLoop pos (n : Int) b = some ((Nat.digits 10 n).reverse.map decimalDigit ++ b) := by
  induction pos with
  | zero =>
    intro n b h
    have hn : n = 0 := by simpa using h
    subst hn
    simp [itoaLoop]
  | succ pos ih =>
    intro n b h
    unfold itoaLoop
    by_cases hn : n = 0
    · subst hn
      simp
    · have hpos : 0 < n := Nat.pos_of_ne_zero hn
      have hgt : (n : Int) > 0 := by exact_mod_cast hpos
      simp only [hgt, if_true]
      have hdiv : (n : Int) / 10 = ((n / 10 : Nat) : Int) := by norm_cast
      have hmod : ((n : Int) % 10).toNat = n % 10 := by
        have : (n : Int) % 10 = ((n % 10 : Nat) : Int) := by norm_cast
        rw [this, Int.toNat_ofNat]
      have hlt : n / 10 < 10 ^ pos := by
        rw [Nat.div_lt_iff_lt_mul (by norm_num)]
        calc n < 10 ^ (pos + 1) := h
          _ = 10 ^ pos * 10 := by ring
      rw [hdiv, hmod, ih (n / 10) _ hlt, Nat.digits_def' (by norm_num) hpos,
        ofNat_digit (n % 10) (Nat.mod_lt n (by norm_num))]
      simp

/-- On every 64-bit integer but the least one, `strconvItoa` returns the
base-10 numeral. -/
theorem strconvItoa_decimal (i : Int) (hlo : -(2 ^ 63) < i) (hhi : i < 2 ^ 63) :
    strconvItoa i = some (decimalInt i) := by
  unfold strconvItoa decimalInt decimalNat
  by_cases h0 : i = 0
  · subst h0
    simp
  · have hb : (i == 0) = false := by simpa using h0
    simp only [hb, Bool.false_eq_true, if_false]
    have habs : i.natAbs ≠ 0 := by simpa using h0
    simp only [habs, if_false]
    have hbound : i.natAbs < 10 ^ 20 := by omega
    by_cases hneg : i < 0
    · have hw : wrapInt64 (-i) = (i.natAbs : Int) := by
        unfold wrapInt64
        omega
      simp only [hneg, if_true, hw, itoaLoop_digits 20 i.natAbs [] hbound]
      simp
    · have hw : i = (i.natAbs : Int) := by omega
      simp only [hneg, if_false]
      conv_lhs => rw [hw]
      rw [itoaLoop_digits 20 i.natAbs [] hbound]
      simp

/-- C13: the final score of a match report item is `0-0` whenever the home or
the away score is unset, and otherwise, for every pair of 64-bit scores above
the least 64-bit value (so for every score a result report can store, those
being non-negative), the base-10 numeral of the home score, a hyphen and the
base-10 numeral of the away score. -/
theorem matchReportItem_finalScore (o : RowOrder) (db : DB) (m : Match) (item : MatchReportItem)
    (hok : matchReportItem o db m = .ok item) :
    ((m.HomeScore = none ∨ m.AwayScore = none) → item.FinalScore = "0-0") ∧
    (∀ h a, m.HomeScore = some h → m.AwayScore = some a →
      -(2 ^ 63) < h → h < 2 ^ 63 → -(2 ^ 63) < a → a < 2 ^ 63 →
      item.FinalScore = decimalInt h ++ "-" ++ decimalInt a) := by
  unfold matchReportItem at hok
  cases hhome : db.teams.find? (fun t => t.ID == m.HomeTeamID) with
  | none => simp [hhome] at hok
  | some home =>
    cases haway : db.teams.find? (fun t => t.ID == m.AwayTeamID) with
    | none => simp [hhome, haway] at hok
    | some away =>
      simp only [hhome, haway] at hok
      cases hh : m.HomeScore with
      | none =>
        simp only [hh, Except.ok.injEq] at hok
        subst hok
        exact ⟨fun _ => rfl, fun h a h1 => Option.noConfusion h1⟩
      | some h =>
        cases ha : m.AwayScore with
        | none =>
          simp only [hh, ha, Except.ok.injEq] at hok
          subst hok
          exact ⟨fun _ => rfl, fun h a _ h2 => Option.noConfusion h2⟩
        | some a =>
          simp only [hh, ha] at hok
          refine ⟨fun hnone => ?_, ?_⟩
          · rcases hnone with h1 | h1 <;> exact Option.noConfusion h1
          · intro h2 a2 e1 e2 h0 h1 a0 a1
            cases e1
            cases e2
            simp only [formatScore, fmtInt, strconvItoa_decimal h h0 h1,
              strconvItoa_decimal a a0 a1, Except.ok.injEq] at hok
            subst hok
            rfl

/-- C13, on the sample store: the report item of the finished match 1, whose
scores 2 and 1 give `2-1`. -/
theorem matchReportItem_finalScore_witness :
    matchReportItem scanOrder sampleDB ⟨1, 100, 1, 2, some 2, some 1, Finished, false⟩ =
      .ok ⟨1, 100, "Garuda", "Elang", "2-1", "Tim Home Menang", some "Ana", 1, 0⟩ ∧
    (((some 2 : Option Int) = none ∨ (some 1 : Option Int) = none) → "2-1" = "0-0") ∧
    (∀ h a : Int, some 2 = some h → some 1 = some a →
      -(2 ^ 63) < h → h < 2 ^ 63 → -(2 ^ 63) < a → a < 2 ^ 63 →
      "2-1" = decimalInt h ++ "-" ++ decimalInt a) :=
  ⟨rfl, matchReportItem_finalScore scanOrder sampleDB
    ⟨1, 100, 1, 2, some 2, some 1, Finished, false⟩
    ⟨1, 100, "Garuda", "Elang", "2-1", "Tim Home Menang", some "Ana", 1, 0⟩ rfl⟩

/-- C15, at the failing input: match 1 of the sample store has the goals of
Ana (player 1, minute 10) and Budi (player 2, minute 55), and the goal list of
`GetMatchReport` carries the two minutes with an empty player name each. -/
theorem getMatchReport_goal_names_empty :
    (goalsOfMatch sampleDB 1).map (fun g =>
        ((sampleDB.players.filter (fun p => p.ID == g.PlayerID)).map Player.Name, g.Minute)) =
      [(["Ana"], 10), (["Budi"], 55)] ∧
    (reportService.GetMatchReport false sampleDB 1).toOption.map MatchReport.Goals =
      some [⟨"", 10⟩, ⟨"", 55⟩] := by
  decide

/-! ## Match service: create and update -/

/-- C19: `UpdateMatch` for a match whose stored status is finished returns an
error and leaves the store as it was, whatever the replacement record. -/
theorem updateMatch_finished_rejected (f : Faults) (db : DB) (m existing : Match)
    (hfound : matchRepository.FindByID db m.ID = some existing)
    (hfinished : existing.Status = Finished) :
    (matchService.UpdateMatch f db m).2 ≠ none ∧ (matchService.UpdateMatch f db m).1 = db := by
  unfold matchService.UpdateMatch
  cases hf : f.find
  · simp [hfound, hfinished]
  · simp

/-- C19, on the sample store: an update of the finished match 1 with new time
and teams. -/
theorem updateMatch_finished_rejected_witness :
    matchRepository.FindByID sampleDB 1 = some ⟨1, 100, 1, 2, some 2, some 1, Finished, false⟩ ∧
    (⟨1, 100, 1, 2, some 2, some 1, Finished, false⟩ : Match).Status = Finished ∧
    (matchService.UpdateMatch noFaults sampleDB ⟨1, 500, 3, 2, none, none, "", false⟩).2 ≠ none ∧
    (matchService.UpdateMatch noFaults sampleDB ⟨1, 500, 3, 2, none, none, "", false⟩).1 =
      sampleDB :=
  ⟨by decide, by decide,
    updateMatch_finished_rejected noFaults sampleDB ⟨1, 500, 3, 2, none, none, "", false⟩
      ⟨1, 100, 1, 2, some 2, some 1, Finished, false⟩ (by decide) (by decide)⟩

/-! ## Scores and status of the stored matches -/

theorem mem_gormSaveMatch (db : DB) (m r : Match) (h : r ∈ (gormSaveMatch db m).matchRows) :
    r ∈ db.matchRows ∨ r = m := by
  unfold gormSaveMatch at h
  split at h
  · obtain ⟨r0, hr0, heq⟩ := List.mem_map.mp h
    by_cases hk : (r0.ID == m.ID) = true
    · simp only [hk, if_true] at heq
      exact Or.inr heq.symm
    · simp only [hk, if_false] at heq
      exact Or.inl (heq ▸ hr0)
  · rcases List.mem_append.mp h with h1 | h1
    · exact Or.inl h1
    · exact Or.inr (List.mem_singleton.mp h1)

theorem update_rows (sf rf : Bool) (db : DB) (m r : Match)
    (h : r ∈ (matchRepository.Update sf rf db m).1.matchRows) : r ∈ db.matchRows ∨ r = m := by
  unfold matchRepository.Update at h
  cases sf
  · cases rf
    · simp only [Bool.false_eq_true, if_false] at h
      split at h <;> exact mem_gormSaveMatch db m r h
    · simp only [Bool.false_eq_true, if_false, if_true] at h
      exact mem_gormSaveMatch db m r h
  · simp only [if_true] at h
    exact Or.inl h

theorem create_rows (sf rf : Bool) (db : DB) (m r : Match)
    (h : r ∈ (matchRepository.Create sf rf db m).1.matchRows) :
    r ∈ db.matchRows ∨ (r.HomeScore = m.HomeScore ∧ r.AwayScore = m.AwayScore ∧
      r.Status = (if m.Status == "" then Scheduled else m.Status)) := by
  unfold matchRepository.Create at h
  cases sf
  · simp only [Bool.false_eq_true, if_false] at h
    cases hc : gormCreateMatch db m with
    | none =>
      simp only [hc] at h
      exact Or.inl h
    | some res =>
      obtain ⟨db1, id⟩ := res
      have hrows : r ∈ db1.matchRows → r ∈ db.matchRows ∨ (r.HomeScore = m.HomeScore ∧
          r.AwayScore = m.AwayScore ∧
          r.Status = (if m.Status == "" then Scheduled else m.Status)) := by
        intro hr
        unfold gormCreateMatch at hc
        split at hc
        · exact Option.noConfusion hc
        · simp only [Option.some.injEq, Prod.mk.injEq] at hc
          rw [← hc.1] at hr
          rcases List.mem_append.mp hr with h1 | h1
          · exact Or.inl h1
          · rw [List.mem_singleton.mp h1]
            exact Or.inr ⟨rfl, rfl, rfl⟩
      simp only [hc] at h
      cases rf
      · simp only [Bool.false_eq_true, if_false] at h
        split at h <;> exact hrows h
      · simp only [if_true] at h
        exact hrows h
  · simp only [if_true] at h
    exact Or.inl h

theorem reportMatchResult_rows (f : Faults) (db : DB) (matchID : Nat) (hs as : Int)
    (goals : List GoalInput) (r : Match)
    (h : r ∈ (matchService.ReportMatchResult f db matchID hs as goals).1.matchRows) :
    r ∈ db.matchRows ∨
      (r.HomeScore = some hs ∧ r.AwayScore = some as ∧ r.Status = Finished) := by
  by_cases herr : (matchService.ReportMatchResult f db matchID hs as goals).2 = none
  · obtain ⟨m, _, hc, _⟩ := reportMatchResult_ok f db matchID hs as goals herr
    obtain ⟨news, hdb, _⟩ := createGoals_ok _ _ _ _ _ _ hc
    rw [hdb] at h
    have h2 : r ∈ (gormSaveMatch db
        { m with HomeScore := some hs, AwayScore := some as, Status := Finished }).matchRows := h
    rcases mem_gormSaveMatch db _ r h2 with h3 | h3
    · exact Or.inl h3
    · rw [h3]
      exact Or.inr ⟨rfl, rfl, rfl⟩
  · rw [reportMatchResult_error_unchanged f db matchID hs as goals herr] at h
    exact Or.inl h

theorem handlerCreate_rows (f : Faults) (db : DB) (req : CreateMatchRequest) (r : Match)
    (h : r ∈ (MatchHandler.Create f db req).1.matchRows) :
    r ∈ db.matchRows ∨ (r.HomeScore = none ∧ r.AwayScore = none ∧ r.Status = Scheduled) := by
  unfold MatchHandler.Create at h
  split at h
  · exact Or.inl h
  · have key : ∀ res : DB × Option String,
        res = matchService.CreateMatch f db
          { ID := 0, MatchTime := req.MatchTime, HomeTeamID := req.HomeTeamID,
            AwayTeamID := req.AwayTeamID, HomeScore := none, AwayScore := none,
            Status := Scheduled, Deleted := false } →
        r ∈ res.1.matchRows →
        r ∈ db.matchRows ∨ (r.HomeScore = none ∧ r.AwayScore = none ∧ r.Status = Scheduled) := by
      intro res hres hr
      unfold matchService.CreateMatch at hres
      split at hres
      · rw [hres] at hr
        exact Or.inl hr
      · rw [hres] at hr
        have hst : ((Scheduled == "") = false) := by decide
        simp only [hst, Bool.false_eq_true, if_false] at hr
        rcases create_rows _ _ _ _ r hr with h1 | ⟨a, b, c⟩
        · exact Or.inl h1
        · refine Or.inr ⟨a, b, ?_⟩
          rw [c]
          simp [hst]
    split at h
    · rename_i db1 e heq
      exact key (db1, some e) heq.symm h
    · rename_i db1 heq
      exact key (db1, none) heq.symm h

theorem handlerUpdate_rows (f : Faults) (db : DB) (id : Nat) (req : CreateMatchRequest)
    (r : Match) (h : r ∈ (MatchHandler.Update f db id req).1.matchRows) :
    r ∈ db.matchRows ∨ (r.HomeScore = none ∧ r.AwayScore = none ∧ r.Status = "") := by
  unfold MatchHandler.Update at h
  split at h
  · exact Or.inl h
  · have key : ∀ res : DB × Option String,
        res = matchService.UpdateMatch f db
          { ID := id, MatchTime := req.MatchTime, HomeTeamID := req.HomeTeamID,
            AwayTeamID := req.AwayTeamID, HomeScore := none, AwayScore := none,
            Status := "", Deleted := false } →
        r ∈ res.1.matchRows →
        r ∈ db.matchRows ∨ (r.HomeScore = none ∧ r.AwayScore = none ∧ r.Status = "") := by
      intro res hres hr
      unfold matchService.UpdateMatch at hres
      split at hres
      · rw [hres] at hr
        exact Or.inl hr
      · split at hres
        · rw [hres] at hr
          exact Or.inl hr
        · rw [hres] at hr
          rcases update_rows _ _ _ _ r hr with h1 | h1
          · exact Or.inl h1
          · rw [h1]
            exact Or.inr ⟨rfl, rfl, rfl⟩
    split at h
    · rename_i db1 e heq
      exact key (db1, some e) heq.symm h
    · rename_i db1 heq
      exact key (db1, none) heq.symm h

theorem handlerReport_rows (f : Faults) (db : DB) (matchID : Nat) (hs as : Int)
    (goals : List GoalInput) (r : Match)
    (h : r ∈ (MatchHandler.ReportResult f db matchID hs as goals).1.matchRows) :
    r ∈ db.matchRows ∨
      (r.HomeScore = some hs ∧ r.AwayScore = some as ∧ r.Status = Finished) := by
  unfold MatchHandler.ReportResult at h
  split at h
  · rename_i db1 e heq
    have : db1 = (matchService.ReportMatchResult f db matchID hs as goals).1 := by rw [heq]
    rw [this] at h
    exact reportMatchResult_rows f db matchID hs as goals r h
  · rename_i db1 heq
    have : db1 = (matchService.ReportMatchResult f db matchID hs as goals).1 := by rw [heq]
    rw [this] at h
    exact reportMatchResult_rows f db matchID hs as goals r h

/-- C20: in every store reached from the empty one through the match handler's
`Create`, `Update` and `ReportResult`, each stored match has both scores
non-null if and only if its status is finished. -/
theorem reachable_scores_iff_finished (db : DB) (h : Reachable db) : ScoresIffFinished db := by
  have hsf : Scheduled ≠ Finished := by decide
  have hef : ("" : String) ≠ Finished := by decide
  induction h with
  | empty => intro r hr; simp [emptyDB] at hr
  | create f db req _ ih =>
    intro r hr
    rcases handlerCreate_rows f db req r hr with h1 | ⟨a, b, c⟩
    · exact ih r h1
    · simp [a, b, c, hsf]
  | update f db id req _ ih =>
    intro r hr
    rcases handlerUpdate_rows f db id req r hr with h1 | ⟨a, b, c⟩
    · exact ih r h1
    · simp [a, b, c, hef]
  | report f db matchID hs as goals _ ih =>
    intro r hr
    rcases handlerReport_rows f db matchID hs as goals r hr with h1 | ⟨a, b, c⟩
    · exact ih r h1
    · simp [a, b, c]

/-- C20, on a run of the three handlers: a match is created, updated, and its
result reported 3-1. -/
theorem reachable_scores_iff_finished_witness :
    Reachable (MatchHandler.ReportResult noFaults
      (MatchHandler.Update noFaults (MatchHandler.Create noFaults emptyDB ⟨100, 1, 2⟩).1
        1 ⟨150, 1, 3⟩).1 1 3 1 []).1 ∧
    ScoresIffFinished (MatchHandler.ReportResult noFaults
      (MatchHandler.Update noFaults (MatchHandler.Create noFaults emptyDB ⟨100, 1, 2⟩).1
        1 ⟨150, 1, 3⟩).1 1 3 1 []).1 :=
  ⟨Reachable.report _ _ _ _ _ _ (Reachable.update _ _ _ _ (Reachable.create _ _ _ Reachable.empty)),
    reachable_scores_iff_finished _
      (Reachable.report _ _ _ _ _ _
        (Reachable.update _ _ _ _ (Reachable.create _ _ _ Reachable.empty)))⟩

/-! ## Player service -/

theorem numberTaken_iff (db : DB) (player : PlayerInput) :
    (playerRepository.FindByTeam db player.TeamID).any (fun p => p.Number == player.Number) = true
      ↔ numberTaken db player := by
  unfold playerRepository.FindByTeam numberTaken
  simp only [List.any_eq_true, List.mem_filter, Bool.and_eq_true, beq_iff_eq,
    Bool.not_eq_true']
  constructor
  · rintro ⟨q, ⟨hq, ht, hd⟩, hn⟩
    exact ⟨q, hq, hd, ht, hn⟩
  · rintro ⟨q, hq, hd, ht, hn⟩
    exact ⟨q, ⟨hq, ht, hd⟩, hn⟩

theorem find_append_last (l : List Player) (x : Player) (p : Player → Bool) (hx : p x = true) :
    ∃ y, (l ++ [x]).find? p = some y := by
  cases h : (l ++ [x]).find? p with
  | none =>
    rw [List.find?_eq_none] at h
    exact absurd hx (h x (by simp))
  | some y => exact ⟨y, rfl⟩

theorem playerCreate_spec (sf rf : Bool) (db : DB) (p : PlayerInput) :
    (sf = false → rf = false → (playerRepository.Create sf rf db p).2 = none) ∧
    ((playerRepository.Create sf rf db p).1 = db ∨
      (playerRepository.Create sf rf db p).1 = { db with players := db.players ++
        [{ ID := freshID (db.players.map Player.ID), TeamID := p.TeamID, Name := p.Name,
           Number := p.Number, Deleted := false }] }) := by
  unfold playerRepository.Create
  cases sf
  · cases rf
    · obtain ⟨y, hy⟩ := find_append_last db.players
        { ID := freshID (db.players.map Player.ID), TeamID := p.TeamID, Name := p.Name,
          Number := p.Number, Deleted := false }
        (fun r => r.ID == freshID (db.players.map Player.ID) && !r.Deleted) (by simp)
      simp [playerRepository.FindByID, hy]
    · simp
  · simp

/-- C16: when no database statement fails, `CreatePlayer` returns an error
exactly when some stored player of the same team has the same shirt number;
in that case the store is left as it was, and otherwise the call is the
repository's `Create` of the player, which adds one row for it under a new
key. -/
theorem createPlayer_number_taken (f : PlayerFaults) (db : DB) (player : PlayerInput)
    (hfind : f.findByTeam = false) (hsave : f.save = false) (hreload : f.reload = false) :
    ((playerService.CreatePlayer f db player).2 ≠ none ↔ numberTaken db player) ∧
    (numberTaken db player → (playerService.CreatePlayer f db player).1 = db) ∧
    (¬ numberTaken db player →
      playerService.CreatePlayer f db player = playerRepository.Create f.save f.reload db player ∧
      (playerService.CreatePlayer f db player).1.players = db.players ++
        [{ ID := freshID (db.players.map Player.ID), TeamID := player.TeamID,
           Name := player.Name, Number := player.Number, Deleted := false }]) := by
  have hiff := numberTaken_iff db player
  obtain ⟨hok, hcases⟩ := playerCreate_spec f.save f.reload db player
  by_cases ht : numberTaken db player
  · have hany := hiff.mpr ht
    unfold playerService.CreatePlayer
    simp only [hfind, Bool.false_eq_true, if_false, hany, if_true]
    refine ⟨⟨fun _ => ht, fun _ => by simp⟩, fun _ => ?_, fun hn => absurd ht hn⟩
    simp
  · have hany : (playerRepository.FindByTeam db player.TeamID).any
        (fun p => p.Number == player.Number) = false := by
      cases h : (playerRepository.FindByTeam db player.TeamID).any
        (fun p => p.Number == player.Number)
      · rfl
      · exact absurd (hiff.mp h) ht
    have heq : playerService.CreatePlayer f db player =
        playerRepository.Create f.save f.reload db player := by
      unfold playerService.CreatePlayer
      simp only [hfind, Bool.false_eq_true, if_false, hany]
    refine ⟨⟨fun herr => ?_, fun h => absurd h ht⟩, fun h => absurd h ht, fun _ => ⟨heq, ?_⟩⟩
    · rw [heq, hok hsave hreload] at herr
      exact absurd rfl herr
    · rw [heq]
      rcases hcases with h | h
      · exfalso
        have h2 := congrArg (fun d => d.players.length) h
        unfold playerRepository.Create at h2
        simp only [hsave, hreload, Bool.false_eq_true, if_false] at h2
        split at h2 <;> simp at h2
      · rw [h]

/-- C16, on the sample store: number 9 is taken in team 1 (Ana), number 10 is
free there. -/
theorem createPlayer_number_taken_witness :
    noPlayerFaults.findByTeam = false ∧ noPlayerFaults.save = false ∧
    noPlayerFaults.reload = false ∧
    (playerService.CreatePlayer noPlayerFaults sampleDB ⟨1, "Dewi", 9⟩ =
      (sampleDB, some "player number already exists in this team")) ∧
    (((playerService.CreatePlayer noPlayerFaults sampleDB ⟨1, "Dewi", 10⟩).2 ≠ none ↔
        numberTaken sampleDB ⟨1, "Dewi", 10⟩) ∧
    (numberTaken sampleDB ⟨1, "Dewi", 10⟩ →
      (playerService.CreatePlayer noPlayerFaults sampleDB ⟨1, "Dewi", 10⟩).1 = sampleDB) ∧
    (¬ numberTaken sampleDB ⟨1, "Dewi", 10⟩ →
      playerService.CreatePlayer noPlayerFaults sampleDB ⟨1, "Dewi", 10⟩ =
        playerRepository.Create noPlayerFaults.save noPlayerFaults.reload sampleDB
          ⟨1, "Dewi", 10⟩ ∧
      (playerService.CreatePlayer noPlayerFaults sampleDB ⟨1, "Dewi", 10⟩).1.players =
        sampleDB.players ++
          [{ ID := freshID (sampleDB.players.map Player.ID), TeamID := 1, Name := "Dewi",
             Number := 10, Deleted := false }])) :=
  ⟨rfl, rfl, rfl, by decide,
    createPlayer_number_taken noPlayerFaults sampleDB ⟨1, "Dewi", 10⟩ rfl rfl rfl⟩

theorem mem_gormSavePlayer (db : DB) (p r : Player) (h : r ∈ (gormSavePlayer db p).players) :
    r = p ∨ (r ∈ db.players ∧ r.ID ≠ p.ID) := by
  unfold gormSavePlayer at h
  split at h
  · obtain ⟨r0, hr0, heq⟩ := List.mem_map.mp h
    by_cases hk : (r0.ID == p.ID) = true
    · simp only [hk, if_true] at heq
      exact Or.inl heq.symm
    · simp only [hk, if_false] at heq
      subst heq
      exact Or.inr ⟨hr0, by simpa using hk⟩
  · rename_i hany
    rcases List.mem_append.mp h with h1 | h1
    · refine Or.inr ⟨h1, ?_⟩
      intro hid
      apply hany
      rw [List.any_eq_true]
      exact ⟨r, h1, by simp [hid]⟩
    · exact Or.inl (List.mem_singleton.mp h1)

theorem playerUpdate_cases (sf rf : Bool) (db : DB) (p : Player) :
    (playerRepository.Update sf rf db p).1 = db ∨
      (playerRepository.Update sf rf db p).1 = gormSavePlayer db p := by
  unfold playerRepository.Update
  cases sf <;> cases rf <;> simp
  split <;> simp

theorem shirtNumbers_after_create (db : DB) (player : PlayerInput)
    (hinv : ShirtNumbersUnique db) (hfree : ¬ numberTaken db player) :
    ShirtNumbersUnique { db with players := db.players ++
      [{ ID := freshID (db.players.map Player.ID), TeamID := player.TeamID,
         Name := player.Name, Number := player.Number, Deleted := false }] } := by
  intro p hp q hq hpl hql hne
  simp only [List.mem_append, List.mem_singleton] at hp hq
  rcases hp with hp | hp <;> rcases hq with hq | hq
  · exact hinv p hp q hq hpl hql hne
  · subst hq
    rintro ⟨h1, h2⟩
    exact hfree ⟨p, hp, hpl, h1, h2⟩
  · subst hp
    rintro ⟨h1, h2⟩
    exact hfree ⟨q, hq, hql, h1.symm, h2.symm⟩
  · subst hp
    subst hq
    exact absurd rfl hne

theorem shirtNumbers_after_save (db : DB) (player : Player) (hinv : ShirtNumbersUnique db)
    (hcheck : (playerRepository.FindByTeam db player.TeamID).any
      (fun p => p.ID != player.ID && p.Number == player.Number) = false) :
    ShirtNumbersUnique (gormSavePlayer db player) := by
  have hother : ∀ q ∈ db.players, q.Deleted = false → q.ID ≠ player.ID →
      ¬ (q.TeamID = player.TeamID ∧ q.Number = player.Number) := by
    intro q hq hql hid hsame
    rw [List.any_eq_false] at hcheck
    have hmem : q ∈ playerRepository.FindByTeam db player.TeamID := by
      unfold playerRepository.FindByTeam
      rw [List.mem_filter]
      exact ⟨hq, by simp [hsame.1, hql]⟩
    have := hcheck q hmem
    simp [hid, hsame.2] at this
  intro p hp q hq hpl hql hne
  rcases mem_gormSavePlayer db player p hp with hp1 | ⟨hp1, hpid⟩
  · rcases mem_gormSavePlayer db player q hq with hq1 | ⟨hq1, hqid⟩
    · rw [hp1, hq1] at hne
      exact absurd rfl hne
    · rw [hp1]
      rintro ⟨h1, h2⟩
      exact hother q hq1 hql hqid ⟨h1.symm, h2.symm⟩
  · rcases mem_gormSavePlayer db player q hq with hq1 | ⟨hq1, hqid⟩
    · rw [hq1]
      exact hother p hp1 hpl hpid
    · exact hinv p hp1 q hq1 hpl hql hne

/-- C17: if no two stored players share team and shirt number before a call of
`CreatePlayer` or `UpdatePlayer`, none do after it, whatever the call is given
and whichever database statement fails. -/
theorem shirtNumbers_unique_preserved (f : PlayerFaults) (db : DB) (created : PlayerInput)
    (updated : Player) (hinv : ShirtNumbersUnique db) :
    ShirtNumbersUnique (playerService.CreatePlayer f db created).1 ∧
    ShirtNumbersUnique (playerService.UpdatePlayer f db updated).1 := by
  constructor
  · unfold playerService.CreatePlayer
    split
    · exact hinv
    · split
      · exact hinv
      · rename_i hany
        have hfree : ¬ numberTaken db created := fun h => hany ((numberTaken_iff db created).mpr h)
        rcases (playerCreate_spec f.save f.reload db created).2 with h | h
        · rw [h]; exact hinv
        · rw [h]; exact shirtNumbers_after_create db created hinv hfree
  · unfold playerService.UpdatePlayer
    split
    · exact hinv
    · split
      · exact hinv
      · split
        · exact hinv
        · rename_i hany
          have hcheck : (playerRepository.FindByTeam db updated.TeamID).any
              (fun p => p.ID != updated.ID && p.Number == updated.Number) = false := by
            simpa using hany
          rcases playerUpdate_cases f.save f.reload db updated with h | h
          · rw [h]; exact hinv
          · rw [h]; exact shirtNumbers_after_save db updated hinv hcheck

/-- C17, on the sample store: a fourth player joins team 1 with the free number
10, and Citra moves from team 3 to team 1 keeping her number 7. -/
theorem shirtNumbers_unique_preserved_witness :
    ShirtNumbersUnique sampleDB ∧
    (ShirtNumbersUnique (playerService.CreatePlayer noPlayerFaults sampleDB ⟨1, "Dewi", 10⟩).1 ∧
     ShirtNumbersUnique
       (playerService.UpdatePlayer noPlayerFaults sampleDB ⟨3, 1, "Citra", 7, false⟩).1) :=
  ⟨by unfold ShirtNumbersUnique; decide,
    shirtNumbers_unique_preserved noPlayerFaults sampleDB ⟨1, "Dewi", 10⟩
      ⟨3, 1, "Citra", 7, false⟩ (by unfold ShirtNumbersUnique; decide)⟩

/-! ## Top scorers -/

theorem filter_key_nil {α : Type} (key : α → Nat) (l : List α) (k : Nat)
    (h : ∀ a ∈ l, key a ≠ k) : l.filter (fun x => key x == k) = [] := by
  rw [List.filter_eq_nil_iff]
  intro a ha hk
  exact h a ha (by simpa using hk)

/-- Every successful `MatchHandler.Update` leaves the match under the path id
stored with the empty status and without scores. -/
theorem handlerUpdate_ok_status (f : Faults) (db : DB) (id : Nat) (req : CreateMatchRequest)
    (h : (MatchHandler.Update f db id req).2 = 200) :
    ∃ m, matchRepository.FindByID (MatchHandler.Update f db id req).1 id = some m ∧
      m.Status = "" ∧ m.MatchTime = req.MatchTime ∧ m.HomeTeamID = req.HomeTeamID ∧
      m.AwayTeamID = req.AwayTeamID := by
  unfold MatchHandler.Update at h ⊢
  by_cases hv : req.valid = true
  · simp only [hv, Bool.not_true, Bool.false_eq_true, if_false] at h ⊢
    unfold matchService.UpdateMatch at h ⊢
    cases hfind : (if f.find = true then none else matchRepository.FindByID db id) with
    | none => simp [hfind] at h
    | some existing =>
      simp only [hfind] at h ⊢
      by_cases hfin : (existing.Status == Finished) = true
      · simp [hfin] at h
      · simp only [hfin, Bool.false_eq_true, if_false] at h ⊢
        unfold matchRepository.Update at h ⊢
        cases hs : f.save
        · cases hr : f.reload
          · simp only [hs, hr, Bool.false_eq_true, if_false] at h ⊢
            cases hre : matchRepository.FindByID (gormSaveMatch db
                { ID := id, MatchTime := req.MatchTime, HomeTeamID := req.HomeTeamID,
                  AwayTeamID := req.AwayTeamID, HomeScore := none, AwayScore := none,
                  Status := "", Deleted := false }) id with
            | none => simp [hre] at h
            | some m =>
              simp only [hre]
              have hex : (if f.find = true then none else matchRepository.FindByID db id) =
                  some existing := hfind
              have hfound : matchRepository.FindByID db id = some existing := by
                cases hff : f.find
                · simpa [hff] using hex
                · simp [hff] at hex
              have hm := gormSaveMatch_find db id existing
                { ID := id, MatchTime := req.MatchTime, HomeTeamID := req.HomeTeamID,
                  AwayTeamID := req.AwayTeamID, HomeScore := none, AwayScore := none,
                  Status := "", Deleted := false } hfound rfl rfl
              rw [hm] at hre
              cases hre
              exact ⟨_, rfl, rfl, rfl, rfl, rfl⟩
          · simp [hs, hr] at h
        · simp [hs] at h
  · have hv2 : req.valid = false := by simpa using hv
    simp [hv2] at h

/-- C21, at the failing input: `MatchHandler.Update` of the scheduled match 2 of
the sample store with a new time and teams 1 and 3 answers 200, and the stored
match then has the empty string as its status, which is neither `scheduled`
nor `finished`; `matchService.UpdateMatch` keeps `scheduled` only when its
caller puts it in the record. -/
theorem handlerUpdate_stores_empty_status :
    matchRepository.FindByID sampleDB 2 = some ⟨2, 200, 1, 2, none, none, Scheduled, false⟩ ∧
    (MatchHandler.Update noFaults sampleDB 2 ⟨250, 1, 3⟩).2 = 200 ∧
    matchRepository.FindByID (MatchHandler.Update noFaults sampleDB 2 ⟨250, 1, 3⟩).1 2 =
      some ⟨2, 250, 1, 3, none, none, "", false⟩ ∧
    ("" : String) ≠ Scheduled ∧ ("" : String) ≠ Finished ∧
    matchRepository.FindByID (matchService.UpdateMatch noFaults sampleDB
      ⟨2, 250, 1, 3, none, none, Scheduled, false⟩).1 2 =
      some ⟨2, 250, 1, 3, none, none, Scheduled, false⟩ := by
  decide

/-! ## Admin registration -/

/-- C22, at the failing input: with one admin registered, a registration under
another address is answered 201 and the table then holds two admins; only a
registration under the address already stored is refused. -/
theorem register_second_admin_accepted :
    AdminHandler.Register sampleAdminEnv [] ⟨"Ani", "ani@liga.id", "rahasia-1"⟩ =
      ([⟨1, "Ani", "ani@liga.id", "hashed:rahasia-1", false⟩], 201) ∧
    AdminHandler.Register sampleAdminEnv [⟨1, "Ani", "ani@liga.id", "hashed:rahasia-1", false⟩]
        ⟨"Beni", "beni@liga.id", "rahasia-2"⟩ =
      ([⟨1, "Ani", "ani@liga.id", "hashed:rahasia-1", false⟩,
        ⟨2, "Beni", "beni@liga.id", "hashed:rahasia-2", false⟩], 201) ∧
    AdminHandler.Register sampleAdminEnv [⟨1, "Ani", "ani@liga.id", "hashed:rahasia-1", false⟩]
        ⟨"Beni", "ani@liga.id", "rahasia-2"⟩ =
      ([⟨1, "Ani", "ani@liga.id", "hashed:rahasia-1", false⟩], 400) := by
  decide

/-! ## Validation of reported goals and scores -/

/-- The tags of `ReportGoalDTO` and of `ReportGoalRequest` accept the same
goals: a non-zero player id and a minute from 1 to 130. -/
theorem goal_tags_accept (g : GoalInput) :
    (ReportGoalDTO.valid g = true ↔ g.PlayerID ≠ 0 ∧ 1 ≤ g.Minute ∧ g.Minute ≤ 130) ∧
    (ReportGoalRequest.valid g = true ↔ g.PlayerID ≠ 0 ∧ 1 ≤ g.Minute ∧ g.Minute ≤ 130) := by
  unfold ReportGoalDTO.valid ReportGoalRequest.valid validRequired validMin validMax
  simp only [Bool.and_eq_true, bne_iff_ne, ne_eq, decide_eq_true_eq]
  constructor
  · constructor
    · rintro ⟨h1, ⟨h2, h3⟩, h4⟩
      exact ⟨h1, by omega, h4⟩
    · rintro ⟨h1, h2, h3⟩
      exact ⟨h1, ⟨by omega, by omega⟩, h3⟩
  · constructor
    · rintro ⟨h1, ⟨h2, h3⟩, h4⟩
      exact ⟨h1, h3, h4⟩
    · rintro ⟨h1, h2, h3⟩
      exact ⟨h1, ⟨by omega, h2⟩, h3⟩

/-- C23, at the failing inputs: a goal of player 1 at minute 0 is refused by the
tags of `ReportGoalDTO` and of `ReportGoalRequest` (minutes 1 and 130 pass,
-1 and 131 do not), and `MatchHandler.ReportResult`, which never evaluates the
tags of its goals, answers 200 to goals at minutes 131 and -1 and stores
them. -/
theorem goal_minute_validation_diverges :
    ReportGoalDTO.valid ⟨1, 0⟩ = false ∧ ReportGoalRequest.valid ⟨1, 0⟩ = false ∧
    ReportGoalDTO.valid ⟨1, 1⟩ = true ∧ ReportGoalDTO.valid ⟨1, 130⟩ = true ∧
    ReportGoalDTO.valid ⟨1, -1⟩ = false ∧ ReportGoalDTO.valid ⟨1, 131⟩ = false ∧
    ReportGoalRequest.valid ⟨1, -1⟩ = false ∧ ReportGoalRequest.valid ⟨1, 131⟩ = false ∧
    (MatchHandler.ReportResult noFaults sampleDB 2 2 0 [⟨1, 131⟩, ⟨1, -1⟩]).2 = 200 ∧
    (goalsOfMatch (MatchHandler.ReportResult noFaults sampleDB 2 2 0 [⟨1, 131⟩, ⟨1, -1⟩]).1 2).map
      (fun g => (g.PlayerID, g.Minute)) = [(1, 131), (1, -1)] := by
  decide

/-- The tags of `ReportResultDTO` accept a body exactly when both scores are
at least 1 and every goal passes the tags of `ReportGoalDTO`. -/
theorem result_tags_accept (dto : ReportResultDTO) :
    dto.valid = true ↔
      1 ≤ dto.HomeScore ∧ 1 ≤ dto.AwayScore ∧ ∀ g ∈ dto.Goals, ReportGoalDTO.valid g = true := by
  unfold ReportResultDTO.valid validRequired validMin
  simp only [Bool.and_eq_true, bne_iff_ne, ne_eq, decide_eq_true_eq, List.all_eq_true]
  constructor
  · rintro ⟨⟨⟨h1, h2⟩, h3, h4⟩, h5⟩
    exact ⟨by omega, by omega, h5⟩
  · rintro ⟨h1, h2, h3⟩
    exact ⟨⟨⟨by omega, by omega⟩, by omega, by omega⟩, h3⟩

/-- C29, at the failing inputs: `reportResult` of `_main.go` refuses a 0-0 draw
and a 1-0 win of the scheduled match 2 at the validation of the body and lets
2-1 pass, and `MatchHandler.ReportResult`, whose scores carry no tag, answers
200 to the score -1 : 0 and stores it. -/
theorem score_validation_diverges :
    ReportResultDTO.valid ⟨0, 0, []⟩ = false ∧ ReportResultDTO.valid ⟨1, 0, []⟩ = false ∧
    ReportResultDTO.valid ⟨2, 1, []⟩ = true ∧ ReportResultDTO.valid ⟨-1, 1, []⟩ = false ∧
    reportResult false false sampleDB 2 ⟨0, 0, []⟩ = ReportCheck.bindingError ∧
    reportResult false false sampleDB 2 ⟨1, 0, []⟩ = ReportCheck.bindingError ∧
    reportResult false false sampleDB 2 ⟨2, 1, []⟩ = ReportCheck.passed ∧
    (MatchHandler.ReportResult noFaults sampleDB 2 (-1) 0 []).2 = 200 ∧
    (matchRepository.FindByID (MatchHandler.ReportResult noFaults sampleDB 2 (-1) 0 []).1 2).map
      (fun m => (m.HomeScore, m.AwayScore, m.Status)) = some (some (-1), some 0, Finished) := by
  decide

/-! ## Delete requests -/

/-- C24, at the failing inputs, on the sample store (ids 3 exist, ids 9 do
not): deleting team 3 and player 3 is answered 200 with a message, only
deleting match 3 is answered 204 without a body; for the missing id 9 the team
handler answers 404, the player handler 500 and the match handler 204. -/
theorem delete_status_codes :
    (TeamHandler.Delete noDeleteFaults sampleDB 3).2 = ⟨200, some "Team deleted successfully"⟩ ∧
    (PlayerHandler.Delete noDeleteFaults sampleDB 3).2 =
      ⟨200, some "Player deleted successfully"⟩ ∧
    (MatchHandler.Delete noDeleteFaults sampleDB 3).2 = ⟨204, none⟩ ∧
    (TeamHandler.Delete noDeleteFaults sampleDB 9).2 = ⟨404, some "Team not found"⟩ ∧
    (PlayerHandler.Delete noDeleteFaults sampleDB 9).2 = ⟨500, some "failed to delete player"⟩ ∧
    (MatchHandler.Delete noDeleteFaults sampleDB 9).2 = ⟨204, none⟩ ∧
    teamRepository.FindByID (TeamHandler.Delete noDeleteFaults sampleDB 3).1 3 = none ∧
    playerRepository.FindByID (PlayerHandler.Delete noDeleteFaults sampleDB 3).1 3 = none ∧
    matchRepository.FindByID (MatchHandler.Delete noDeleteFaults sampleDB 3).1 3 = none ∧
    teamRepository.FindByID sampleDB 9 = none ∧ playerRepository.FindByID sampleDB 9 = none ∧
    matchRepository.FindByID sampleDB 9 = none := by
  decide

/-! ## The single-file program: scorers of a result report -/

/-- C25, at the failing input: for the scheduled match 2 (team 1 v team 2) of
the sample store and the body 2-1 with goals of Ana at minutes 10 and 20 and
of Budi at minute 55, every scorer exists and plays for the home or the away
team, yet `reportResult` refuses the list as `players not found`; with one goal
of Ana left out the list passes. -/
theorem reportResult_refuses_second_goal_of_player :
    (sampleDB.matchRows.find? (fun m => m.ID == 2)).map
      (fun m => (m.HomeTeamID, m.AwayTeamID, m.Status)) = some (1, 2, Scheduled) ∧
    ReportResultDTO.valid ⟨2, 1, [⟨1, 10⟩, ⟨1, 20⟩, ⟨2, 55⟩]⟩ = true ∧
    ([⟨1, 10⟩, ⟨1, 20⟩, ⟨2, 55⟩] : List GoalInput).all (fun g =>
      sampleDB.players.any (fun p => p.ID == g.PlayerID && (p.TeamID == 1 || p.TeamID == 2))) =
      true ∧
    reportResult false false sampleDB 2 ⟨2, 1, [⟨1, 10⟩, ⟨1, 20⟩, ⟨2, 55⟩]⟩ =
      ReportCheck.playersNotFound ∧
    reportResult false false sampleDB 2 ⟨2, 1, [⟨1, 10⟩, ⟨2, 55⟩]⟩ = ReportCheck.passed ∧
    reportResult false false sampleDB 2 ⟨2, 1, [⟨1, 10⟩, ⟨3, 55⟩]⟩ =
      ReportCheck.scorerOutsideTeams ∧
    reportResult false false sampleDB 2 ⟨2, 1, [⟨1, 10⟩, ⟨9, 55⟩]⟩ =
      ReportCheck.playersNotFound := by
  decide

/-! ## Top scorers after a repeated report -/

/-- C28, at the failing input: the result of match 1 of the sample store is
reported again with Ana's goal moved from minute 10 to minute 12. Ana then has
two goals attached to matches and Budi one, and `GetTopScorers` lists Ana with
3 and Budi with 2: the two replaced rows are still counted. -/
theorem getTopScorers_counts_replaced_goals :
    (matchService.ReportMatchResult noFaults sampleDB 1 2 1 [⟨1, 12⟩, ⟨2, 55⟩]).2 = none ∧
    liveGoals (matchService.ReportMatchResult noFaults sampleDB 1 2 1 [⟨1, 12⟩, ⟨2, 55⟩]).1 1
      = 2 ∧
    liveGoals (matchService.ReportMatchResult noFaults sampleDB 1 2 1 [⟨1, 12⟩, ⟨2, 55⟩]).1 2
      = 1 ∧
    reportService.GetTopScorers scanOrder
      (matchService.ReportMatchResult noFaults sampleDB 1 2 1 [⟨1, 12⟩, ⟨2, 55⟩]).1 10 =
      [⟨1, "Ana", "Garuda", 3⟩, ⟨2, "Budi", "Elang", 2⟩] ∧
    reportService.GetTopScorers backwardOrder
      (matchService.ReportMatchResult noFaults sampleDB 1 2 1 [⟨1, 12⟩, ⟨2, 55⟩]).1 10 =
      [⟨1, "Ana", "Garuda", 3⟩, ⟨2, "Budi", "Elang", 2⟩] := by
  decide
/-! ## The integer formatter of the single-file program -/

/-- With unique player keys, `reportResult` lets no goal list pass in which a
player id occurs twice: the players read with `IN` are fewer than the goals. -/
theorem reportResult_repeated_scorer (ff pf : Bool) (db : DB) (id : Nat) (dto : ReportResultDTO)
    (hpk : (db.players.map Player.ID).Nodup)
    (hrep : ¬ (dto.Goals.map GoalInput.PlayerID).Nodup) :
    reportResult ff pf db id dto ≠ ReportCheck.passed := by
  have hne : dto.Goals ≠ [] := by
    intro h
    rw [h] at hrep
    exact hrep List.nodup_nil
  have hpos : dto.Goals.length > 0 := List.length_pos.mpr hne
  have hsub : (db.players.filter (fun p =>
      (dto.Goals.map GoalInput.PlayerID).contains p.ID)).map Player.ID ⊆
      (dto.Goals.map GoalInput.PlayerID).dedup := by
    intro k hk
    obtain ⟨p, hp, hpk2⟩ := List.mem_map.mp hk
    rw [List.mem_filter] at hp
    rw [List.mem_dedup, ← hpk2]
    simpa using hp.2
  have hnd : ((db.players.filter (fun p =>
      (dto.Goals.map GoalInput.PlayerID).contains p.ID)).map Player.ID).Nodup :=
    List.Nodup.sublist (List.Sublist.map _ (List.filter_sublist _)) hpk
  have hle := (List.subperm_of_subset hnd hsub).length_le
  have hlt : (dto.Goals.map GoalInput.PlayerID).dedup.length <
      (dto.Goals.map GoalInput.PlayerID).length := by
    rcases Nat.lt_or_ge (dto.Goals.map GoalInput.PlayerID).dedup.length
      (dto.Goals.map GoalInput.PlayerID).length with h | h
    · exact h
    · exfalso
      have hs := List.dedup_sublist (dto.Goals.map GoalInput.PlayerID)
      have heq := hs.eq_of_length_le h
      exact hrep (heq ▸ List.nodup_dedup _)
  have hlen : ((db.players.filter (fun p =>
      (dto.Goals.map GoalInput.PlayerID).contains p.ID)).length !=
      (dto.Goals.map GoalInput.PlayerID).length) = true := by
    rw [List.length_map] at hle
    simp only [bne_iff_ne, ne_eq]
    omega
  unfold reportResult
  split
  · simp
  · split
    · simp
    · split
      · simp
      · simp only [hpos, if_true, hlen, Bool.or_true]
        simp

/-! ## Admin registration: a new address -/

/-- Whatever the table holds, a well-formed registration under an address no
row has is answered 201 and adds a row, when hashing and the database do not
fail. -/
theorem register_new_email (env : AdminEnv) (admins : List Admin) (req : RegisterRequest)
    (hashed : String)
    (hvalid : req.valid env.emailOK = true) (hfind : env.find = false)
    (hcreate : env.create = false) (hhash : env.hash req.Password = some hashed)
    (hnew : ∀ a ∈ admins, a.Email ≠ req.Email) :
    AdminHandler.Register env admins req =
      (admins ++ [⟨freshID (admins.map Admin.ID), req.Name, req.Email, hashed, false⟩], 201) := by
  have hnone : adminRepository.FindByEmail admins req.Email = none := by
    unfold adminRepository.FindByEmail
    rw [List.find?_eq_none]
    intro a ha
    simp [hnew a ha]
  have hany : admins.any (fun a => a.Email == req.Email) = false := by
    rw [List.any_eq_false]
    intro a ha
    simp [hnew a ha]
  unfold AdminHandler.Register adminService.FindByEmail adminService.Register
    adminRepository.Create
  simp [hvalid, hfind, hcreate, hhash, hnone, hany]
/-! ## Keys of the standings map -/

theorem mapSet_keys (st : StandingsMap) (k : Nat) (v : TeamStanding) :
    (mapSet st k v).map Prod.fst =
      if k ∈ st.map Prod.fst then st.map Prod.fst else st.map Prod.fst ++ [k] := by
  by_cases hk : k ∈ st.map Prod.fst
  · simp only [hk, if_true]
    unfold mapSet
    have hany : st.any (fun e => e.1 == k) = true := by
      rw [List.any_eq_true]
      obtain ⟨e, he, hek⟩ := List.mem_map.mp hk
      exact ⟨e, he, by simp [hek]⟩
    simp only [hany, if_true, List.map_map]
    apply List.map_congr_left
    intro e _
    by_cases hek : e.1 = k
    · simp [hek]
    · simp [hek]
  · simp only [hk, if_false]
    rw [mapSet_of_not_mem st k v hk]
    simp

theorem foldl_mapSet_keys (ts : List Team) :
    ∀ acc : StandingsMap, (acc.map Prod.fst).Nodup →
      ((ts.foldl (fun st t => mapSet st t.ID (zeroStanding t)) acc).map Prod.fst).Nodup ∧
      ∀ k, k ∈ (ts.foldl (fun st t => mapSet st t.ID (zeroStanding t)) acc).map Prod.fst ↔
        (k ∈ acc.map Prod.fst ∨ k ∈ ts.map Team.ID) := by
  induction ts with
  | nil => intro acc h; simp [h]
  | cons t rest ih =>
    intro acc hnd
    simp only [List.foldl_cons]
    have hkeys := mapSet_keys acc t.ID (zeroStanding t)
    have hnd1 : ((mapSet acc t.ID (zeroStanding t)).map Prod.fst).Nodup := by
      rw [hkeys]
      by_cases hk : t.ID ∈ acc.map Prod.fst
      · simp only [hk, if_true]
        exact hnd
      · simp only [hk, if_false]
        rw [List.nodup_append]
        refine ⟨hnd, List.nodup_singleton _, ?_⟩
        intro a ha hb
        rw [List.mem_singleton] at hb
        exact hk (hb ▸ ha)
    obtain ⟨h1, h2⟩ := ih (mapSet acc t.ID (zeroStanding t)) hnd1
    refine ⟨h1, fun k => ?_⟩
    rw [h2 k, hkeys]
    by_cases hk : t.ID ∈ acc.map Prod.fst
    · simp only [hk, if_true, List.map_cons, List.mem_cons]
      constructor
      · rintro (h | h)
        · exact Or.inl h
        · exact Or.inr (Or.inr h)
      · rintro (h | h | h)
        · exact Or.inl h
        · exact Or.inl (h ▸ hk)
        · exact Or.inr h
    · simp only [hk, if_false, List.map_cons, List.mem_cons, List.mem_append,
        List.mem_singleton, List.not_mem_nil, or_false]
      constructor
      · rintro ((h | h) | h)
        · exact Or.inl h
        · exact Or.inr (Or.inl h)
        · exact Or.inr (Or.inr h)
      · rintro (h | h | h)
        · exact Or.inl (Or.inl h)
        · exact Or.inl (Or.inr h)
        · exact Or.inr h

/-- After the first loop the map has one entry per team id of the list. -/
theorem initStandings_keys (teams : List Team) :
    ((initStandings teams).map Prod.fst).Nodup ∧
    ∀ k, k ∈ (initStandings teams).map Prod.fst ↔ k ∈ teams.map Team.ID := by
  rw [initStandings_eq]
  obtain ⟨h1, h2⟩ := foldl_mapSet_keys teams [] (by simp)
  refine ⟨h1, fun k => ?_⟩
  rw [h2 k]
  simp

theorem mapGet_none (st : StandingsMap) (k : Nat) (h : k ∉ st.map Prod.fst) :
    mapGet st k = none := by
  unfold mapGet
  have : st.find? (fun e => e.1 == k) = none := by
    rw [List.find?_eq_none]
    intro e he hk
    exact h (List.mem_map.mpr ⟨e, he, by simpa using hk⟩)
  rw [this]
  rfl

/-- One iteration of the match loop dereferences a nil pointer exactly on a
counted match with a team that has no entry in the map. -/
theorem processMatch_none_iff (st : StandingsMap) (m : Match) :
    processMatch st m = none ↔
      (counted m = true ∧
        (m.HomeTeamID ∉ st.map Prod.fst ∨ m.AwayTeamID ∉ st.map Prod.fst)) := by
  constructor
  · intro hnone
    by_cases hc : counted m = true
    · refine ⟨hc, ?_⟩
      by_contra hcon
      push_neg at hcon
      obtain ⟨st1, h1⟩ := processMatch_total st m (fun _ => hcon)
      rw [hnone] at h1
      exact Option.noConfusion h1
    · have hc2 : counted m = false := by simpa using hc
      rw [processMatch_skip st m hc2] at hnone
      exact Option.noConfusion hnone
  · rintro ⟨hc, hmiss⟩
    obtain ⟨hst, hs, as, hhs, has⟩ := counted_scores m hc
    unfold processMatch
    simp only [hhs, has, hst, bne_self_eq_false, Bool.false_eq_true, if_false]
    rcases hmiss with h | h
    · rw [mapGet_none st _ h]
    · rw [mapGet_none st _ h]
      cases mapGet st m.HomeTeamID <;> rfl

theorem processMatch_keys (st st1 : StandingsMap) (m : Match)
    (h : processMatch st m = some st1) : st1.map Prod.fst = st.map Prod.fst := by
  rw [processMatch_eq_map st st1 m h, List.map_map]
  apply List.map_congr_left
  intro e _
  rfl

/-- The match loop aborts exactly when some counted match has a team without
an entry in the map. -/
theorem tallyMatches_none_iff (ms : List Match) :
    ∀ st : StandingsMap, tallyMatches st ms = none ↔
      ∃ m ∈ ms, counted m = true ∧
        (m.HomeTeamID ∉ st.map Prod.fst ∨ m.AwayTeamID ∉ st.map Prod.fst) := by
  induction ms with
  | nil => intro st; simp [tallyMatches]
  | cons m rest ih =>
    intro st
    unfold tallyMatches
    cases hp : processMatch st m with
    | none =>
      simp only [true_iff]
      exact ⟨m, List.mem_cons_self m rest, (processMatch_none_iff st m).mp hp⟩
    | some st1 =>
      simp only
      rw [ih st1, processMatch_keys st st1 m hp]
      constructor
      · rintro ⟨x, hx, hcx⟩
        exact ⟨x, List.mem_cons_of_mem m hx, hcx⟩
      · rintro ⟨x, hx, hcx⟩
        rcases List.mem_cons.mp hx with rfl | hx1
        · have := (processMatch_none_iff st x).mpr hcx
          rw [hp] at this
          exact Option.noConfusion this
        · exact ⟨x, hx1, hcx⟩

/-- `GetStandings` ends in the nil-pointer panic exactly when some counted
match has a home or away team that is not in the team list. -/
theorem getStandings_none_iff (o : MapOrder) (teams : List Team) (ms : List Match) :
    reportService.GetStandings o teams ms = none ↔
      ∃ m ∈ ms, counted m = true ∧
        (m.HomeTeamID ∉ teams.map Team.ID ∨ m.AwayTeamID ∉ teams.map Team.ID) := by
  have hk := (initStandings_keys teams).2
  unfold reportService.GetStandings
  cases ht : tallyMatches (initStandings teams) ms with
  | none =>
    simp only [true_iff]
    obtain ⟨m, hm, hc, hmiss⟩ := (tallyMatches_none_iff ms _).mp ht
    rw [hk, hk] at hmiss
    exact ⟨m, hm, hc, hmiss⟩
  | some st =>
    simp only [reduceCtorEq, false_iff]
    rintro ⟨m, hm, hc, hmiss⟩
    rw [← hk, ← hk] at hmiss
    have := (tallyMatches_none_iff ms _).mpr ⟨m, hm, hc, hmiss⟩
    rw [ht] at this
    exact Option.noConfusion this

/-- C26, at the failing input: team 2 of the sample store is deleted through
`TeamHandler.Delete` (answer 200); its finished match 1 stays in the store, and
`GetStandings` on the store then ends in the nil-pointer panic instead of
returning a table, for every iteration order of the map. In general the panic
occurs exactly when a finished match with both scores has a home or away team
that is not in the team list. -/
theorem getStandings_panics_after_team_delete :
    (TeamHandler.Delete noDeleteFaults sampleDB 2).2.Status = 200 ∧
    (teamRepository.FindAll scanOrder (TeamHandler.Delete noDeleteFaults sampleDB 2).1).map
      Team.ID = [1, 3] ∧
    (matchRepository.FindAll scanOrder (TeamHandler.Delete noDeleteFaults sampleDB 2).1).map
      (fun m => (m.ID, m.HomeTeamID, m.AwayTeamID, counted m)) =
      [(1, 1, 2, true), (2, 1, 2, false), (3, 2, 3, false)] ∧
    (∀ o : MapOrder, reportService.GetStandingsFrom o scanOrder
      (TeamHandler.Delete noDeleteFaults sampleDB 2).1 = none) ∧
    (∀ (o : MapOrder) (teams : List Team) (ms : List Match),
      reportService.GetStandings o teams ms = none ↔
        ∃ m ∈ ms, counted m = true ∧
          (m.HomeTeamID ∉ teams.map Team.ID ∨ m.AwayTeamID ∉ teams.map Team.ID)) := by
  refine ⟨by decide, by decide, by decide, ?_, getStandings_none_iff⟩
  intro o
  unfold reportService.GetStandingsFrom
  rw [getStandings_none_iff]
  exact ⟨⟨1, 100, 1, 2, some 2, some 1, Finished, false⟩, by decide, by decide, by decide⟩
/-! ## Conservation in the league table -/

end XyzFootball
